import Mathlib

/-!
# Sitronix ST7703 panel driver: lifecycle and command batches

A shallow embedding of `panel-sitronix-st7703-gx040hd.c`.

* The hardware the driver talks to (two regulators, the reset GPIO, the DSI
  bus and the sleeping clock) is a record `Hw` that also keeps a log of every
  call the driver makes on it, in order.
* What the hardware answers is an `Env`: the return code of
  `regulator_enable` and of a DSI transfer, each a function of the log so
  far.  Every deterministic bus or regulator behaviour is such a function.
* The driver functions keep their C names and are plain state-passing
  functions.
-/

namespace ST7703

/-! ## Manufacturer specific commands sent via DSI -/

abbrev ST7703_CMD_ALL_PIXEL_OFF : Nat := 0x22
abbrev ST7703_CMD_ALL_PIXEL_ON : Nat := 0x23
abbrev ST7703_CMD_SETAPID : Nat := 0xB1
abbrev ST7703_CMD_SETDISP : Nat := 0xB2
abbrev ST7703_CMD_SETRGBIF : Nat := 0xB3
abbrev ST7703_CMD_SETCYC : Nat := 0xB4
abbrev ST7703_CMD_SETBGP : Nat := 0xB5
abbrev ST7703_CMD_SETVCOM : Nat := 0xB6
abbrev ST7703_CMD_SETOTP : Nat := 0xB7
abbrev ST7703_CMD_SETPOWER_EXT : Nat := 0xB8
abbrev ST7703_CMD_SETEXTC : Nat := 0xB9
abbrev ST7703_CMD_SETMIPI : Nat := 0xBA
abbrev ST7703_CMD_SETVDC : Nat := 0xBC
abbrev ST7703_CMD_UNKNOWN_BF : Nat := 0xBF
abbrev ST7703_CMD_SETSCR : Nat := 0xC0
abbrev ST7703_CMD_SETPOWER : Nat := 0xC1
abbrev ST7703_CMD_SETECO : Nat := 0xC6
abbrev ST7703_CMD_SETIO : Nat := 0xC7
abbrev ST7703_CMD_SETCABC : Nat := 0xC8
abbrev ST7703_CMD_SETPANEL : Nat := 0xCC
abbrev ST7703_CMD_SETGAMMA : Nat := 0xE0
abbrev ST7703_CMD_SETEQ : Nat := 0xE3
abbrev ST7703_CMD_SETGIP1 : Nat := 0xE9
abbrev ST7703_CMD_SETGIP2 : Nat := 0xEA
abbrev ST7703_CMD_UNKNOWN_EF : Nat := 0xEF

/-! ## Hardware, log and environment -/

/-- The two supplies of `struct st7703`: `vcc` (core) and `iovcc` (I/O). -/
inductive Rail
  | vcc
  | iovcc
  deriving DecidableEq, Repr

/-- One command frame as the driver hands it to the DSI bus: the framing
kind is the helper the source calls, `cmd` is the opcode (first argument
after the context) and `seq` the parameter bytes. -/
inductive Cmd
  | generic_write_seq (cmd : Nat) (seq : List Nat)
  | dcs_write_seq (cmd : Nat) (seq : List Nat)
  | dcs_exit_sleep_mode
  | dcs_set_display_on
  | dcs_set_display_off
  | dcs_enter_sleep_mode
  deriving DecidableEq, Repr

/-- One call of the driver on the hardware, with the return code where the
driver reads one. -/
inductive Event
  | regulator_enable (r : Rail) (ret : Int)
  | regulator_disable (r : Rail)
  | gpiod_set_value (value : Nat)
  | usleep_range (min max : Nat)
  | msleep (msecs : Nat)
  | dsi_transfer (c : Cmd) (ret : Int)
  deriving DecidableEq, Repr

/-- The behaviour of the collaborators: the return code of enabling a rail
and of one bus transfer, given everything the driver did before.  A negative
code is a failure, as the driver tests `ret < 0`. -/
structure Env where
  regulator_enable : List Event → Rail → Int
  dsi_transfer : List Event → Cmd → Int

/-- The state of the hardware behind one `struct st7703`: whether each rail is
enabled, the logical value of the reset GPIO (1 is asserted), and the log. -/
structure Hw where
  vcc : Bool
  iovcc : Bool
  reset_gpio : Nat
  log : List Event
  deriving DecidableEq, Repr

/-- The `struct mipi_dsi_multi_context` of a batch; the `dsi` handle is the
bus of `Hw`. -/
structure mipi_dsi_multi_context where
  accum_err : Int
  deriving DecidableEq, Repr

/-- A batch in flight: its context and the hardware it acts on. -/
abbrev Batch : Type := mipi_dsi_multi_context × Hw

/-- Append one event to the log. -/
def Hw.record (w : Hw) (e : Event) : Hw :=
  { w with log := w.log ++ [e] }

/-- Modelled from the spec: the power-rail primitive `regulator_enable`, which
is not under src/.  The environment decides the return code; on success
(`ret >= 0`) the rail is enabled, and enabling is idempotent. -/
def regulator_enable (env : Env) (r : Rail) (w : Hw) : Int × Hw :=
  let ret := env.regulator_enable w.log r
  let w1 := w.record (Event.regulator_enable r ret)
  if ret < 0 then (ret, w1)
  else
    match r with
    | Rail.vcc => (ret, { w1 with vcc := true })
    | Rail.iovcc => (ret, { w1 with iovcc := true })

/-- Modelled from the spec: the power-rail primitive `regulator_disable`,
which is not under src/.  The driver ignores its return code; the rail is
disabled, and disabling is idempotent. -/
def regulator_disable (r : Rail) (w : Hw) : Hw :=
  let w1 := w.record (Event.regulator_disable r)
  match r with
  | Rail.vcc => { w1 with vcc := false }
  | Rail.iovcc => { w1 with iovcc := false }

/-- Modelled from the spec: the reset-line primitive
`gpiod_set_value_cansleep`, which is not under src/: a level-set call. -/
def gpiod_set_value_cansleep (value : Nat) (w : Hw) : Hw :=
  { w.record (Event.gpiod_set_value value) with reset_gpio := value }

/-- Modelled from the spec: the blocking delay `usleep_range`, which is not
under src/. -/
def usleep_range (min max : Nat) (w : Hw) : Hw :=
  w.record (Event.usleep_range min max)

/-- Modelled from the spec: the blocking delay `msleep`, which is not under
src/. -/
def msleep (msecs : Nat) (w : Hw) : Hw :=
  w.record (Event.msleep msecs)

/-- Modelled from the spec: the Command Batch Emitter `emit`, which is not
under src/ (the `mipi_dsi_*_multi` helpers).  A no-op once the accumulated
error is set; otherwise the frame is handed to the bus and a negative return
code becomes the accumulated error. -/
def mipi_dsi_multi (env : Env) (c : Cmd) (b : Batch) : Batch :=
  if b.1.accum_err ≠ 0 then b
  else
    let ret := env.dsi_transfer b.2.log c
    let w1 := b.2.record (Event.dsi_transfer c ret)
    if ret < 0 then ({ accum_err := ret }, w1) else (b.1, w1)

/-- Modelled from the spec: the Command Batch Emitter `delay`, which is not
under src/ (`mipi_dsi_msleep`).  A no-op once the accumulated error is set. -/
def mipi_dsi_msleep (msecs : Nat) (b : Batch) : Batch :=
  if b.1.accum_err ≠ 0 then b else (b.1, msleep msecs b.2)

/-- The helper `mipi_dsi_generic_write_seq_multi(ctx, cmd, seq...)`. -/
def mipi_dsi_generic_write_seq_multi (env : Env) (cmd : Nat) (seq : List Nat)
    (b : Batch) : Batch :=
  mipi_dsi_multi env (Cmd.generic_write_seq cmd seq) b

/-- The helper `mipi_dsi_dcs_write_seq_multi(ctx, cmd, seq...)`. -/
def mipi_dsi_dcs_write_seq_multi (env : Env) (cmd : Nat) (seq : List Nat)
    (b : Batch) : Batch :=
  mipi_dsi_multi env (Cmd.dcs_write_seq cmd seq) b

/-- The helper `mipi_dsi_dcs_exit_sleep_mode_multi(ctx)`. -/
def mipi_dsi_dcs_exit_sleep_mode_multi (env : Env) (b : Batch) : Batch :=
  mipi_dsi_multi env Cmd.dcs_exit_sleep_mode b

/-- The helper `mipi_dsi_dcs_set_display_on_multi(ctx)`. -/
def mipi_dsi_dcs_set_display_on_multi (env : Env) (b : Batch) : Batch :=
  mipi_dsi_multi env Cmd.dcs_set_display_on b

/-- The helper `mipi_dsi_dcs_set_display_off_multi(ctx)`. -/
def mipi_dsi_dcs_set_display_off_multi (env : Env) (b : Batch) : Batch :=
  mipi_dsi_multi env Cmd.dcs_set_display_off b

/-- The helper `mipi_dsi_dcs_enter_sleep_mode_multi(ctx)`. -/
def mipi_dsi_dcs_enter_sleep_mode_multi (env : Env) (b : Batch) : Batch :=
  mipi_dsi_multi env Cmd.dcs_enter_sleep_mode b

/-! ## Panel descriptors -/

/-- The flags of `drm_display_mode.flags` the driver uses. -/
inductive drm_mode_flag
  | DRM_MODE_FLAG_NHSYNC
  | DRM_MODE_FLAG_NVSYNC
  deriving DecidableEq, Repr

/-- The flags of `mode_flags` the driver uses. -/
inductive mipi_dsi_mode_flag
  | MIPI_DSI_MODE_VIDEO
  | MIPI_DSI_MODE_VIDEO_BURST
  | MIPI_DSI_MODE_VIDEO_SYNC_PULSE
  | MIPI_DSI_MODE_NO_EOT_PACKET
  | MIPI_DSI_MODE_LPM
  deriving DecidableEq, Repr

/-- The pixel formats of `enum mipi_dsi_pixel_format`. -/
inductive mipi_dsi_pixel_format
  | MIPI_DSI_FMT_RGB888
  | MIPI_DSI_FMT_RGB666
  | MIPI_DSI_FMT_RGB666_PACKED
  | MIPI_DSI_FMT_RGB565
  deriving DecidableEq, Repr

/-- The fields of `struct drm_display_mode` the driver sets. -/
structure drm_display_mode where
  hdisplay : Nat
  hsync_start : Nat
  hsync_end : Nat
  htotal : Nat
  vdisplay : Nat
  vsync_start : Nat
  vsync_end : Nat
  vtotal : Nat
  clock : Nat
  flags : List drm_mode_flag
  width_mm : Nat
  height_mm : Nat
  deriving DecidableEq, Repr

/-- The `struct st7703_panel_desc`. -/
structure st7703_panel_desc where
  mode : drm_display_mode
  lanes : Nat
  mode_flags : List mipi_dsi_mode_flag
  format : mipi_dsi_pixel_format
  init_sequence : Env → Batch → Batch

/-! ## The three variants -/

/-- The init sequence of the Rocktech jh057n00900, supplied by the panel
vendor: a flat list of calls on one batch. -/
def jh057n_init_sequence (env : Env) (dsi_ctx : Batch) : Batch :=
  dsi_ctx
  |> mipi_dsi_generic_write_seq_multi env ST7703_CMD_SETEXTC [0xF1, 0x12, 0x83]
  |> mipi_dsi_generic_write_seq_multi env ST7703_CMD_SETRGBIF
      [0x10, 0x10, 0x05, 0x05, 0x03, 0xFF, 0x00, 0x00, 0x00, 0x00]
  |> mipi_dsi_generic_write_seq_multi env ST7703_CMD_SETSCR
      [0x73, 0x73, 0x50, 0x50, 0x00, 0x00, 0x08, 0x70, 0x00]
  |> mipi_dsi_generic_write_seq_multi env ST7703_CMD_SETVDC [0x4E]
  |> mipi_dsi_generic_write_seq_multi env ST7703_CMD_SETPANEL [0x0B]
  |> mipi_dsi_generic_write_seq_multi env ST7703_CMD_SETCYC [0x80]
  |> mipi_dsi_generic_write_seq_multi env ST7703_CMD_SETDISP [0xF0, 0x12, 0x30]
  |> mipi_dsi_generic_write_seq_multi env ST7703_CMD_SETEQ
      [0x07, 0x07, 0x0B, 0x0B, 0x03, 0x0B, 0x00, 0x00, 0x00, 0x00, 0xFF,
       0x00, 0xC0, 0x10]
  |> mipi_dsi_generic_write_seq_multi env ST7703_CMD_SETBGP [0x08, 0x08]
  |> mipi_dsi_msleep 20
  |> mipi_dsi_generic_write_seq_multi env ST7703_CMD_SETVCOM [0x3F, 0x3F]
  |> mipi_dsi_generic_write_seq_multi env ST7703_CMD_UNKNOWN_BF [0x02, 0x11, 0x00]
  |> mipi_dsi_generic_write_seq_multi env ST7703_CMD_SETGIP1
      [0x82, 0x10, 0x06, 0x05, 0x9E, 0x0A, 0xA5, 0x12, 0x31, 0x23, 0x37,
       0x83, 0x04, 0xBC, 0x27, 0x38, 0x0C, 0x00, 0x03, 0x00, 0x00, 0x00,
       0x0C, 0x00, 0x03, 0x00, 0x00, 0x00, 0x75, 0x75, 0x31, 0x88, 0x88,
       0x88, 0x88, 0x88, 0x88, 0x13, 0x88, 0x64, 0x64, 0x20, 0x88, 0x88,
       0x88, 0x88, 0x88, 0x88, 0x02, 0x88, 0x00, 0x00, 0x00, 0x00, 0x00,
       0x00, 0x00, 0x00, 0x00, 0x00, 0x00, 0x00, 0x00]
  |> mipi_dsi_generic_write_seq_multi env ST7703_CMD_SETGIP2
      [0x02, 0x21, 0x00, 0x00, 0x00, 0x00, 0x00, 0x00, 0x00, 0x00, 0x00,
       0x00, 0x02, 0x46, 0x02, 0x88, 0x88, 0x88, 0x88, 0x88, 0x88, 0x64,
       0x88, 0x13, 0x57, 0x13, 0x88, 0x88, 0x88, 0x88, 0x88, 0x88, 0x75,
       0x88, 0x23, 0x14, 0x00, 0x00, 0x02, 0x00, 0x00, 0x00, 0x00, 0x00,
       0x00, 0x00, 0x00, 0x00, 0x00, 0x00, 0x00, 0x00, 0x00, 0x00, 0x30,
       0x0A, 0xA5, 0x00, 0x00, 0x00, 0x00]
  |> mipi_dsi_dcs_write_seq_multi env ST7703_CMD_SETGAMMA
      [0x00, 0x09, 0x0D, 0x23, 0x27, 0x3C, 0x41, 0x35, 0x07, 0x0D, 0x0E,
       0x12, 0x13, 0x10, 0x12, 0x12, 0x18, 0x00, 0x09, 0x0D, 0x23, 0x27,
       0x3C, 0x41, 0x35, 0x07, 0x0D, 0x0E, 0x12, 0x13, 0x10, 0x12, 0x12,
       0x18]

/-- The mode `jh057n00900_mode`. -/
def jh057n00900_mode : drm_display_mode :=
  { hdisplay := 720
    hsync_start := 720 + 90
    hsync_end := 720 + 90 + 20
    htotal := 720 + 90 + 20 + 20
    vdisplay := 1440
    vsync_start := 1440 + 20
    vsync_end := 1440 + 20 + 4
    vtotal := 1440 + 20 + 4 + 12
    clock := 75276
    flags := [drm_mode_flag.DRM_MODE_FLAG_NHSYNC, drm_mode_flag.DRM_MODE_FLAG_NVSYNC]
    width_mm := 65
    height_mm := 130 }

/-- The descriptor `jh057n00900_panel_desc`. -/
def jh057n00900_panel_desc : st7703_panel_desc :=
  { mode := jh057n00900_mode
    lanes := 4
    mode_flags := [mipi_dsi_mode_flag.MIPI_DSI_MODE_VIDEO,
      mipi_dsi_mode_flag.MIPI_DSI_MODE_VIDEO_BURST,
      mipi_dsi_mode_flag.MIPI_DSI_MODE_VIDEO_SYNC_PULSE]
    format := mipi_dsi_pixel_format.MIPI_DSI_FMT_RGB888
    init_sequence := jh057n_init_sequence }

/-- The init sequence of the Xingbangda XBD599, supplied by the panel vendor;
its first frame is the magic sequence that unlocks the user commands below. -/
def xbd599_init_sequence (env : Env) (dsi_ctx : Batch) : Batch :=
  dsi_ctx
  |> mipi_dsi_dcs_write_seq_multi env ST7703_CMD_SETEXTC [0xF1, 0x12, 0x83]
  |> mipi_dsi_dcs_write_seq_multi env ST7703_CMD_SETMIPI
      [0x33, 0x81, 0x05, 0xF9, 0x0E, 0x0E, 0x20, 0x00, 0x00, 0x00, 0x00,
       0x00, 0x00, 0x00, 0x44, 0x25, 0x00, 0x90, 0x0a, 0x00, 0x00, 0x01,
       0x4f, 0x01, 0x00, 0x00, 0x37]
  |> mipi_dsi_dcs_write_seq_multi env ST7703_CMD_SETPOWER_EXT [0x25, 0x22, 0xf0, 0x63]
  |> mipi_dsi_dcs_write_seq_multi env ST7703_CMD_UNKNOWN_BF [0x02, 0x11, 0x00]
  |> mipi_dsi_dcs_write_seq_multi env ST7703_CMD_SETRGBIF
      [0x10, 0x10, 0x28, 0x28, 0x03, 0xff, 0x00, 0x00, 0x00, 0x00]
  |> mipi_dsi_dcs_write_seq_multi env ST7703_CMD_SETSCR
      [0x73, 0x73, 0x50, 0x50, 0x00, 0x00, 0x12, 0x70, 0x00]
  |> mipi_dsi_dcs_write_seq_multi env ST7703_CMD_SETVDC [0x46]
  |> mipi_dsi_dcs_write_seq_multi env ST7703_CMD_SETPANEL [0x0b]
  |> mipi_dsi_dcs_write_seq_multi env ST7703_CMD_SETCYC [0x80]
  |> mipi_dsi_dcs_write_seq_multi env ST7703_CMD_SETDISP [0x3c, 0x12, 0x30]
  |> mipi_dsi_dcs_write_seq_multi env ST7703_CMD_SETEQ
      [0x07, 0x07, 0x0b, 0x0b, 0x03, 0x0b, 0x00, 0x00, 0x00, 0x00, 0xff,
       0x00, 0xc0, 0x10]
  |> mipi_dsi_dcs_write_seq_multi env ST7703_CMD_SETPOWER
      [0x36, 0x00, 0x32, 0x32, 0x77, 0xf1, 0xcc, 0xcc, 0x77, 0x77, 0x33,
       0x33]
  |> mipi_dsi_dcs_write_seq_multi env ST7703_CMD_SETBGP [0x0a, 0x0a]
  |> mipi_dsi_dcs_write_seq_multi env ST7703_CMD_SETVCOM [0xb2, 0xb2]
  |> mipi_dsi_dcs_write_seq_multi env ST7703_CMD_SETGIP1
      [0xc8, 0x10, 0x0a, 0x10, 0x0f, 0xa1, 0x80, 0x12, 0x31, 0x23, 0x47,
       0x86, 0xa1, 0x80, 0x47, 0x08, 0x00, 0x00, 0x0d, 0x00, 0x00, 0x00,
       0x00, 0x00, 0x0d, 0x00, 0x00, 0x00, 0x48, 0x02, 0x8b, 0xaf, 0x46,
       0x02, 0x88, 0x88, 0x88, 0x88, 0x88, 0x48, 0x13, 0x8b, 0xaf, 0x57,
       0x13, 0x88, 0x88, 0x88, 0x88, 0x88, 0x00, 0x00, 0x00, 0x01, 0x00,
       0x00, 0x00, 0x00, 0x00, 0x00, 0x00, 0x00, 0x00]
  |> mipi_dsi_dcs_write_seq_multi env ST7703_CMD_SETGIP2
      [0x96, 0x12, 0x01, 0x01, 0x01, 0x78, 0x02, 0x00, 0x00, 0x00, 0x00,
       0x00, 0x4f, 0x31, 0x8b, 0xa8, 0x31, 0x75, 0x88, 0x88, 0x88, 0x88,
       0x88, 0x4f, 0x20, 0x8b, 0xa8, 0x20, 0x64, 0x88, 0x88, 0x88, 0x88,
       0x88, 0x23, 0x00, 0x00, 0x01, 0x02, 0x00, 0x00, 0x00, 0x00, 0x00,
       0x00, 0x00, 0x00, 0x00, 0x00, 0x00, 0x00, 0x00, 0x00, 0x00, 0x40,
       0xa1, 0x80, 0x00, 0x00, 0x00, 0x00]
  |> mipi_dsi_dcs_write_seq_multi env ST7703_CMD_SETGAMMA
      [0x00, 0x0a, 0x0f, 0x29, 0x3b, 0x3f, 0x42, 0x39, 0x06, 0x0d, 0x10,
       0x13, 0x15, 0x14, 0x15, 0x10, 0x17, 0x00, 0x0a, 0x0f, 0x29, 0x3b,
       0x3f, 0x42, 0x39, 0x06, 0x0d, 0x10, 0x13, 0x15, 0x14, 0x15, 0x10,
       0x17]

/-- The mode `xbd599_mode`. -/
def xbd599_mode : drm_display_mode :=
  { hdisplay := 720
    hsync_start := 720 + 40
    hsync_end := 720 + 40 + 40
    htotal := 720 + 40 + 40 + 40
    vdisplay := 1440
    vsync_start := 1440 + 18
    vsync_end := 1440 + 18 + 10
    vtotal := 1440 + 18 + 10 + 17
    clock := 69000
    flags := [drm_mode_flag.DRM_MODE_FLAG_NHSYNC, drm_mode_flag.DRM_MODE_FLAG_NVSYNC]
    width_mm := 68
    height_mm := 136 }

/-- The descriptor `xbd599_desc`. -/
def xbd599_desc : st7703_panel_desc :=
  { mode := xbd599_mode
    lanes := 4
    mode_flags := [mipi_dsi_mode_flag.MIPI_DSI_MODE_VIDEO,
      mipi_dsi_mode_flag.MIPI_DSI_MODE_VIDEO_SYNC_PULSE]
    format := mipi_dsi_pixel_format.MIPI_DSI_FMT_RGB888
    init_sequence := xbd599_init_sequence }

/-- The init sequence of the GX040HD-30MB-A1 4.0" 720x720 panel, extracted
from the vendor BSP. -/
def gx040hd_init_sequence (env : Env) (dsi_ctx : Batch) : Batch :=
  dsi_ctx
  |> mipi_dsi_dcs_write_seq_multi env ST7703_CMD_SETEXTC [0xF1, 0x12, 0x83]
  |> mipi_dsi_dcs_write_seq_multi env ST7703_CMD_SETMIPI
      [0x33, 0x81, 0x05, 0xF9, 0x0E, 0x0E, 0x20, 0x00, 0x00, 0x00, 0x00,
       0x00, 0x00, 0x00, 0x44, 0x25, 0x00, 0x90, 0x0A, 0x00, 0x00, 0x01,
       0x4F, 0x01, 0x00, 0x00, 0x37]
  |> mipi_dsi_dcs_write_seq_multi env ST7703_CMD_SETPOWER_EXT [0x25, 0x22, 0xF0, 0x63]
  |> mipi_dsi_dcs_write_seq_multi env ST7703_CMD_UNKNOWN_BF [0x02, 0x11, 0x00]
  |> mipi_dsi_dcs_write_seq_multi env ST7703_CMD_SETRGBIF
      [0x10, 0x10, 0x28, 0x28, 0x03, 0xFF, 0x00, 0x00, 0x00, 0x00]
  |> mipi_dsi_dcs_write_seq_multi env ST7703_CMD_SETSCR
      [0x73, 0x73, 0x50, 0x50, 0x00, 0x00, 0x12, 0x70, 0x00]
  |> mipi_dsi_dcs_write_seq_multi env ST7703_CMD_SETVDC [0x46]
  |> mipi_dsi_dcs_write_seq_multi env ST7703_CMD_SETPANEL [0x0B]
  |> mipi_dsi_dcs_write_seq_multi env ST7703_CMD_SETCYC [0x80]
  |> mipi_dsi_dcs_write_seq_multi env ST7703_CMD_SETDISP [0x3C, 0x12, 0x30]
  |> mipi_dsi_dcs_write_seq_multi env ST7703_CMD_SETEQ
      [0x07, 0x07, 0x0B, 0x0B, 0x03, 0x0B, 0x00, 0x00, 0x00, 0x00, 0xFF,
       0x00, 0xC0, 0x10]
  |> mipi_dsi_dcs_write_seq_multi env ST7703_CMD_SETPOWER
      [0x36, 0x00, 0x32, 0x32, 0x77, 0xF1, 0xCC, 0xCC, 0x77, 0x77, 0x33,
       0x33]
  |> mipi_dsi_dcs_write_seq_multi env ST7703_CMD_SETBGP [0x0A, 0x0A]
  |> mipi_dsi_dcs_write_seq_multi env ST7703_CMD_SETVCOM [0xB2, 0xB2]
  |> mipi_dsi_dcs_write_seq_multi env ST7703_CMD_SETGIP1
      [0xC8, 0x10, 0x0A, 0x10, 0x0F, 0xA1, 0x80, 0x12, 0x31, 0x23, 0x47,
       0x86, 0xA1, 0x80, 0x47, 0x08, 0x00, 0x00, 0x0D, 0x00, 0x00, 0x00,
       0x00, 0x00, 0x0D, 0x00, 0x00, 0x00, 0x48, 0x02, 0x8B, 0xAF, 0x46,
       0x02, 0x88, 0x88, 0x88, 0x88, 0x88, 0x48, 0x13, 0x8B, 0xAF, 0x57,
       0x13, 0x88, 0x88, 0x88, 0x88, 0x88, 0x88, 0x88, 0x88, 0x88, 0x88,
       0x88, 0x00, 0x00, 0x00, 0x00, 0x00, 0x00, 0x00]
  |> mipi_dsi_dcs_write_seq_multi env ST7703_CMD_SETGIP2
      [0x96, 0x12, 0x01, 0x01, 0x01, 0x78, 0x02, 0x00, 0x00, 0x00, 0x00,
       0x00, 0x4F, 0x31, 0x8B, 0xA8, 0x31, 0x75, 0x88, 0x88, 0x88, 0x88,
       0x88, 0x4F, 0x20, 0x8B, 0xA8, 0x20, 0x64, 0x88, 0x88, 0x88, 0x88,
       0x88, 0x23, 0x00, 0x00, 0x01, 0x02, 0x00, 0x00, 0x00, 0x00, 0x00,
       0x00, 0x00, 0x00, 0x00, 0x00, 0x00, 0x00, 0x00, 0x00, 0x00, 0x40,
       0xA1, 0x80, 0x00, 0x00, 0x00, 0x00]
  |> mipi_dsi_dcs_write_seq_multi env ST7703_CMD_SETGAMMA
      [0x00, 0x0A, 0x0F, 0x29, 0x3B, 0x3F, 0x42, 0x39, 0x06, 0x0D, 0x10,
       0x13, 0x15, 0x14, 0x15, 0x10, 0x17, 0x00, 0x0A, 0x0F, 0x29, 0x3B,
       0x3F, 0x42, 0x39, 0x06, 0x0D, 0x10, 0x13, 0x15, 0x14, 0x15, 0x10,
       0x17]

/-- The mode `gx040hd_mode`. -/
def gx040hd_mode : drm_display_mode :=
  { hdisplay := 720
    hsync_start := 720 + 80
    hsync_end := 720 + 80 + 20
    htotal := 720 + 80 + 20 + 80
    vdisplay := 720
    vsync_start := 720 + 30
    vsync_end := 720 + 30 + 4
    vtotal := 720 + 30 + 4 + 12
    clock := 41400
    flags := [drm_mode_flag.DRM_MODE_FLAG_NHSYNC, drm_mode_flag.DRM_MODE_FLAG_NVSYNC]
    width_mm := 89
    height_mm := 89 }

/-- The descriptor `gx040hd_desc`. -/
def gx040hd_desc : st7703_panel_desc :=
  { mode := gx040hd_mode
    lanes := 4
    mode_flags := [mipi_dsi_mode_flag.MIPI_DSI_MODE_VIDEO,
      mipi_dsi_mode_flag.MIPI_DSI_MODE_VIDEO_BURST,
      mipi_dsi_mode_flag.MIPI_DSI_MODE_NO_EOT_PACKET,
      mipi_dsi_mode_flag.MIPI_DSI_MODE_LPM]
    format := mipi_dsi_pixel_format.MIPI_DSI_FMT_RGB888
    init_sequence := gx040hd_init_sequence }

/-! ## Lifecycle callbacks -/

/-- The callback `st7703_enable`: exit sleep, 250 ms, display on, 50 ms, on a
fresh batch; the result is the accumulated error. -/
def st7703_enable (env : Env) (w : Hw) : Int × Hw :=
  let dsi_ctx : Batch := ({ accum_err := 0 }, w)
  let dsi_ctx := mipi_dsi_dcs_exit_sleep_mode_multi env dsi_ctx
  let dsi_ctx := mipi_dsi_msleep 250 dsi_ctx
  let dsi_ctx := mipi_dsi_dcs_set_display_on_multi env dsi_ctx
  let dsi_ctx := mipi_dsi_msleep 50 dsi_ctx
  (dsi_ctx.1.accum_err, dsi_ctx.2)

/-- The callback `st7703_disable`: display off, 120 ms. -/
def st7703_disable (env : Env) (w : Hw) : Int × Hw :=
  let dsi_ctx : Batch := ({ accum_err := 0 }, w)
  let dsi_ctx := mipi_dsi_dcs_set_display_off_multi env dsi_ctx
  let dsi_ctx := mipi_dsi_msleep 120 dsi_ctx
  (dsi_ctx.1.accum_err, dsi_ctx.2)

/-- The callback `st7703_unprepare`: enter sleep, 120 ms, then reset asserted
and both rails disabled, whatever the batch accumulated. -/
def st7703_unprepare (env : Env) (w : Hw) : Int × Hw :=
  let dsi_ctx : Batch := ({ accum_err := 0 }, w)
  let dsi_ctx := mipi_dsi_dcs_enter_sleep_mode_multi env dsi_ctx
  let dsi_ctx := mipi_dsi_msleep 120 dsi_ctx
  let w := gpiod_set_value_cansleep 1 dsi_ctx.2
  let w := regulator_disable Rail.iovcc w
  let w := regulator_disable Rail.vcc w
  (dsi_ctx.1.accum_err, w)

/-- The callback `st7703_prepare`.  The two labels `disable_iovcc` and
`disable_vcc` both end in `return ret`, where `ret` is the local last assigned
from `regulator_enable(ctx->iovcc)`. -/
def st7703_prepare (env : Env) (desc : st7703_panel_desc) (w : Hw) : Int × Hw :=
  let dsi_ctx : mipi_dsi_multi_context := { accum_err := 0 }
  let r := regulator_enable env Rail.vcc w
  let ret := r.1
  if ret < 0 then (ret, r.2)
  else
    let r := regulator_enable env Rail.iovcc r.2
    let ret := r.1
    if ret < 0 then
      -- goto disable_vcc
      (ret, regulator_disable Rail.vcc r.2)
    else
      let w := gpiod_set_value_cansleep 1 r.2
      let w := usleep_range 20 40 w
      let w := gpiod_set_value_cansleep 0 w
      let w := msleep 20 w
      let b := desc.init_sequence env (dsi_ctx, w)
      if b.1.accum_err ≠ 0 then
        -- goto disable_iovcc, falling through to disable_vcc
        (ret, regulator_disable Rail.vcc (regulator_disable Rail.iovcc b.2))
      else (0, b.2)

/-! ## Variant registry -/

/-- One entry of `struct of_device_id`. -/
structure of_device_id where
  compatible : String
  data : st7703_panel_desc

/-- The table `st7703_of_match`, without its sentinel. -/
def st7703_of_match : List of_device_id :=
  [ { compatible := "gx040hd,gx040hd-30mb-a1", data := gx040hd_desc },
    { compatible := "rocktech,jh057n00900", data := jh057n00900_panel_desc },
    { compatible := "xingbangda,xbd599", data := xbd599_desc } ]

/-- Modelled from the spec: the registry lookup `of_device_get_match_data`,
which is not under src/: the descriptor of the first entry whose identifier
is the given one, if any. -/
def of_device_get_match_data (compatible : String) : Option st7703_panel_desc :=
  (st7703_of_match.find? (fun e => e.compatible == compatible)).map (fun e => e.data)

/-! ## Batches as step lists -/

/-- One call on a batch: a command frame or a delay. -/
inductive Step
  | emit (c : Cmd)
  | delay (msecs : Nat)
  deriving DecidableEq, Repr

/-- Run one call on a batch. -/
def Step.run (env : Env) : Step → Batch → Batch
  | Step.emit c, b => mipi_dsi_multi env c b
  | Step.delay msecs, b => mipi_dsi_msleep msecs b

/-- Run a flat list of calls on a batch, in order. -/
def run_steps (env : Env) : List Step → Batch → Batch
  | [], b => b
  | s :: rest, b => run_steps env rest (s.run env b)

/-- The frame of a call, if it is a command. -/
def Step.frame : Step → Option Cmd
  | Step.emit c => some c
  | Step.delay _ => none

/-- The batch call a log event stands for, if any. -/
def Event.step : Event → Option Step
  | Event.dsi_transfer c _ => some (Step.emit c)
  | Event.msleep msecs => some (Step.delay msecs)
  | _ => none

/-- The bus transfer a log event stands for, if any: frame and return code. -/
def Event.xfer : Event → Option (Cmd × Int)
  | Event.dsi_transfer c ret => some (c, ret)
  | _ => none

/-- The bus transfers of a log, in order, with their return codes. -/
def dsi_xfers (l : List Event) : List (Cmd × Int) :=
  l.filterMap Event.xfer

/-- The frames handed to the bus in a log, in order. -/
def dsi_frames (l : List Event) : List Cmd :=
  (dsi_xfers l).map Prod.fst

/-- The events logged since the hardware was in state `w`. -/
def Hw.since (w1 w : Hw) : List Event :=
  w1.log.drop w.log.length

/-- A bus and regulators that accept everything with return code 0. -/
def env_ok : Env :=
  { regulator_enable := fun _ _ => 0
    dsi_transfer := fun _ _ => 0 }

/-- The hardware right after probe: rails off, reset requested low, no log. -/
def hw_off : Hw :=
  { vcc := false, iovcc := false, reset_gpio := 0, log := [] }

/-- The log an init sequence writes on an always-succeeding bus. -/
def init_log (init : Env → Batch → Batch) : List Event :=
  (init env_ok ({ accum_err := 0 }, hw_off)).2.log

/-- The calls an init sequence makes on an always-succeeding bus. -/
def steps_of (init : Env → Batch → Batch) : List Step :=
  (init_log init).filterMap Event.step

/-- The frame list an init sequence produces on an always-succeeding bus. -/
def frames_of (init : Env → Batch → Batch) : List Cmd :=
  dsi_frames (init_log init)

/-- The descriptors of the registry. -/
def st7703_variants : List st7703_panel_desc :=
  st7703_of_match.map (fun e => e.data)

/-- The events a batch with a clear error flag appends to history `h`. -/
def batch_log (env : Env) : List Step → List Event → List Event
  | [], _ => []
  | Step.delay msecs :: rest, h =>
      Event.msleep msecs :: batch_log env rest (h ++ [Event.msleep msecs])
  | Step.emit c :: rest, h =>
      Event.dsi_transfer c (env.dsi_transfer h c) ::
        (if env.dsi_transfer h c < 0 then []
         else batch_log env rest (h ++ [Event.dsi_transfer c (env.dsi_transfer h c)]))

/-- The accumulated error of a batch that starts with a clear error flag at
history `h`. -/
def batch_err (env : Env) : List Step → List Event → Int
  | [], _ => 0
  | Step.delay msecs :: rest, h => batch_err env rest (h ++ [Event.msleep msecs])
  | Step.emit c :: rest, h =>
      if env.dsi_transfer h c < 0 then env.dsi_transfer h c
      else batch_err env rest (h ++ [Event.dsi_transfer c (env.dsi_transfer h c)])

/-- The return code of `regulator_enable(ctx->vcc)` in a prepare from `w`. -/
def vcc_ret (env : Env) (w : Hw) : Int :=
  env.regulator_enable w.log Rail.vcc

/-- The return code of `regulator_enable(ctx->iovcc)` in a prepare from `w`
whose core rail was enabled. -/
def iovcc_ret (env : Env) (w : Hw) : Int :=
  env.regulator_enable (w.log ++ [Event.regulator_enable Rail.vcc (vcc_ret env w)]) Rail.iovcc

/-- The events of the power-up prelude of prepare when both rails enable:
core rail, I/O rail, reset asserted, 20-40 us, reset released, 20 ms. -/
def prepare_prelude (r1 r2 : Int) : List Event :=
  [Event.regulator_enable Rail.vcc r1, Event.regulator_enable Rail.iovcc r2,
    Event.gpiod_set_value 1, Event.usleep_range 20 40, Event.gpiod_set_value 0,
    Event.msleep 20]

/-- Rails that enable with return code 0 and a bus that fails every transfer
with -5 (the kernel's -EIO). -/
def env_bus_dead : Env :=
  { regulator_enable := fun _ _ => 0
    dsi_transfer := fun _ _ => -5 }

/-- Rails that enable with return code 0 and a bus that accepts two transfers
and fails the third one of the log with -5. -/
def env_third_fails : Env :=
  { regulator_enable := fun _ _ => 0
    dsi_transfer := fun h _ => if (dsi_xfers h).length = 2 then -5 else 0 }

/-- The state of the power-sequencing monitor: which rails the log has
enabled so far, and whether the order was respected so far. -/
structure RailMon where
  vcc : Bool
  iovcc : Bool
  ok : Bool
  deriving DecidableEq, Repr

/-- One step of the monitor.  Enabling the I/O rail is in order only while the
core rail is enabled; disabling the core rail is in order only while the I/O
rail is not enabled.  A rail counts as enabled from a `regulator_enable` that
returned no error until its next `regulator_disable`. -/
def RailMon.step (m : RailMon) : Event → RailMon
  | Event.regulator_enable Rail.vcc ret =>
      { m with vcc := m.vcc || decide (0 ≤ ret) }
  | Event.regulator_enable Rail.iovcc ret =>
      { m with iovcc := m.iovcc || decide (0 ≤ ret), ok := m.ok && m.vcc }
  | Event.regulator_disable Rail.iovcc =>
      { m with iovcc := false }
  | Event.regulator_disable Rail.vcc =>
      { m with vcc := false, ok := m.ok && !m.iovcc }
  | _ => m

/-- Whether a log respects the power ordering, starting with the rails in the
given states. -/
def rail_order_ok (vcc iovcc : Bool) (l : List Event) : Bool :=
  (l.foldl RailMon.step { vcc := vcc, iovcc := iovcc, ok := true }).ok

/-- A core rail that fails to enable with -22 (the kernel's -EINVAL). -/
def env_vcc_fails : Env :=
  { regulator_enable := fun _ r => match r with
      | Rail.vcc => -22
      | Rail.iovcc => 0
    dsi_transfer := fun _ _ => 0 }

/-- An I/O rail that fails to enable with -22, behind a core rail that
enables. -/
def env_iovcc_fails : Env :=
  { regulator_enable := fun _ r => match r with
      | Rail.vcc => 0
      | Rail.iovcc => -22
    dsi_transfer := fun _ _ => 0 }

/-- The host's call sequence prepare, enable, disable, unprepare on one
panel: the four results in call order, and the hardware at the end. -/
def lifecycle (env : Env) (desc : st7703_panel_desc) (w : Hw) :
    (Int × Int × Int × Int) × Hw :=
  let p := st7703_prepare env desc w
  let e := st7703_enable env p.2
  let d := st7703_disable env e.2
  let u := st7703_unprepare env d.2
  ((p.1, e.1, d.1, u.1), u.2)

/-- The hardware after the power-up prelude of a prepare from `w` whose two
rails enabled: both rails on, reset released, the prelude logged. -/
def after_prelude (env : Env) (w : Hw) : Hw :=
  { vcc := true, iovcc := true, reset_gpio := 0,
    log := w.log ++ prepare_prelude (vcc_ret env w) (iovcc_ret env w) }

/-- The return code of the exit-sleep command in an enable from `w`. -/
def exit_sleep_ret (env : Env) (w : Hw) : Int :=
  env.dsi_transfer w.log Cmd.dcs_exit_sleep_mode

/-- The return code of the display-on command in an enable from `w` whose
exit-sleep command was accepted. -/
def display_on_ret (env : Env) (w : Hw) : Int :=
  env.dsi_transfer
    (w.log ++ [Event.dsi_transfer Cmd.dcs_exit_sleep_mode (exit_sleep_ret env w),
      Event.msleep 250])
    Cmd.dcs_set_display_on

/-- Whether a frame is sent with generic-write framing. -/
def Cmd.is_generic_write : Cmd → Bool
  | Cmd.generic_write_seq _ _ => true
  | _ => false

/-- Whether a frame is sent with DCS-write framing. -/
def Cmd.is_dcs_write : Cmd → Bool
  | Cmd.dcs_write_seq _ _ => true
  | _ => false

/-- The opcode of a frame written with one of the two `write_seq` helpers. -/
def Cmd.opcode : Cmd → Option Nat
  | Cmd.generic_write_seq cmd _ => some cmd
  | Cmd.dcs_write_seq cmd _ => some cmd
  | _ => none

/-- The frames an init sequence hands to the bus of `env` when run on a fresh
batch from the hardware state `w`. -/
def frames_on (env : Env) (init : Env → Batch → Batch) (w : Hw) : List Cmd :=
  dsi_frames ((init env ({ accum_err := 0 }, w)).2.since w)

/-- Rails that enable with return code 0 and a bus that accepts the exit-sleep
command and fails every other transfer with -5. -/
def env_display_on_fails : Env :=
  { regulator_enable := fun _ _ => 0
    dsi_transfer := fun _ c => if c = Cmd.dcs_exit_sleep_mode then 0 else -5 }

/-- The parameter bytes of a frame written with one of the two `write_seq`
helpers. -/
def Cmd.seq : Cmd → List Nat
  | Cmd.generic_write_seq _ seq => seq
  | Cmd.dcs_write_seq _ seq => seq
  | _ => []

/-- The events an init sequence logs on the bus of `env` when run on a fresh
batch from the hardware state `w`. -/
def events_on (env : Env) (init : Env → Batch → Batch) (w : Hw) : List Event :=
  (init env ({ accum_err := 0 }, w)).2.since w

/-! ## Lemmas on batches -/

theorem mipi_dsi_multi_sticky (env : Env) (c : Cmd) (b : Batch)
    (h : b.1.accum_err ≠ 0) : mipi_dsi_multi env c b = b := by
  simp [mipi_dsi_multi, h]

theorem mipi_dsi_msleep_sticky (msecs : Nat) (b : Batch)
    (h : b.1.accum_err ≠ 0) : mipi_dsi_msleep msecs b = b := by
  simp [mipi_dsi_msleep, h]

theorem run_steps_sticky (env : Env) (steps : List Step) :
    ∀ b : Batch, b.1.accum_err ≠ 0 → run_steps env steps b = b := by
  induction steps with
  | nil => intro b _; rfl
  | cons s rest ih =>
    intro b h
    cases s with
    | emit c => simp [run_steps, Step.run, mipi_dsi_multi_sticky env c b h, ih b h]
    | delay msecs => simp [run_steps, Step.run, mipi_dsi_msleep_sticky msecs b h, ih b h]

theorem run_steps_clear (env : Env) (steps : List Step) :
    ∀ w : Hw, run_steps env steps ({ accum_err := 0 }, w) =
      ({ accum_err := batch_err env steps w.log },
        { w with log := w.log ++ batch_log env steps w.log }) := by
  induction steps with
  | nil => intro w; simp [run_steps, batch_err, batch_log]
  | cons s rest ih =>
    intro w
    cases s with
    | delay msecs =>
      simp [run_steps, Step.run, mipi_dsi_msleep, msleep, Hw.record, ih, batch_err, batch_log]
    | emit c =>
      by_cases hr : env.dsi_transfer w.log c < 0
      · have hne : env.dsi_transfer w.log c ≠ 0 := by omega
        have hs := run_steps_sticky env rest
          ({ accum_err := env.dsi_transfer w.log c },
            w.record (Event.dsi_transfer c (env.dsi_transfer w.log c))) hne
        simp only [Hw.record] at hs
        simp [run_steps, Step.run, mipi_dsi_multi, hr, hs, batch_err, batch_log, Hw.record]
      · simp [run_steps, Step.run, mipi_dsi_multi, hr, Hw.record, ih, batch_err, batch_log]

theorem jh057n_init_sequence_steps (env : Env) (b : Batch) :
    jh057n_init_sequence env b = run_steps env (steps_of jh057n_init_sequence) b := rfl

theorem xbd599_init_sequence_steps (env : Env) (b : Batch) :
    xbd599_init_sequence env b = run_steps env (steps_of xbd599_init_sequence) b := rfl

theorem gx040hd_init_sequence_steps (env : Env) (b : Batch) :
    gx040hd_init_sequence env b = run_steps env (steps_of gx040hd_init_sequence) b := rfl

theorem variant_init_sequence_steps (desc : st7703_panel_desc)
    (hd : desc ∈ st7703_variants) (env : Env) (b : Batch) :
    desc.init_sequence env b = run_steps env (steps_of desc.init_sequence) b := by
  simp [st7703_variants, st7703_of_match] at hd
  rcases hd with rfl | rfl | rfl
  · exact gx040hd_init_sequence_steps env b
  · exact jh057n_init_sequence_steps env b
  · exact xbd599_init_sequence_steps env b

/-! ## The prepare callback, path by path -/

theorem st7703_prepare_eq (env : Env) (desc : st7703_panel_desc)
    (hd : desc ∈ st7703_variants) (w : Hw) :
    st7703_prepare env desc w =
      if vcc_ret env w < 0 then
        (vcc_ret env w,
          { w with log := w.log ++ [Event.regulator_enable Rail.vcc (vcc_ret env w)] })
      else if iovcc_ret env w < 0 then
        (iovcc_ret env w,
          { w with
            vcc := false
            log := w.log ++ [Event.regulator_enable Rail.vcc (vcc_ret env w),
              Event.regulator_enable Rail.iovcc (iovcc_ret env w),
              Event.regulator_disable Rail.vcc] })
      else if batch_err env (steps_of desc.init_sequence)
          (w.log ++ prepare_prelude (vcc_ret env w) (iovcc_ret env w)) ≠ 0 then
        (iovcc_ret env w,
          { vcc := false, iovcc := false, reset_gpio := 0,
            log := w.log ++ prepare_prelude (vcc_ret env w) (iovcc_ret env w) ++
              batch_log env (steps_of desc.init_sequence)
                (w.log ++ prepare_prelude (vcc_ret env w) (iovcc_ret env w)) ++
              [Event.regulator_disable Rail.iovcc, Event.regulator_disable Rail.vcc] })
      else
        (0,
          { vcc := true, iovcc := true, reset_gpio := 0,
            log := w.log ++ prepare_prelude (vcc_ret env w) (iovcc_ret env w) ++
              batch_log env (steps_of desc.init_sequence)
                (w.log ++ prepare_prelude (vcc_ret env w) (iovcc_ret env w)) }) := by
  unfold st7703_prepare
  simp only [variant_init_sequence_steps desc hd, run_steps_clear]
  by_cases h1 : vcc_ret env w < 0
  · have h1a : env.regulator_enable w.log Rail.vcc < 0 := h1
    simp [h1, regulator_enable, h1a, Hw.record, vcc_ret]
  · have h1a : ¬ env.regulator_enable w.log Rail.vcc < 0 := h1
    by_cases h2 : iovcc_ret env w < 0
    · have h2a : env.regulator_enable
          (w.log ++ [Event.regulator_enable Rail.vcc (env.regulator_enable w.log Rail.vcc)])
          Rail.iovcc < 0 := h2
      simp [h1, h2, regulator_enable, regulator_disable, h1a, h2a, Hw.record, vcc_ret,
        iovcc_ret]
    · have h2a : ¬ env.regulator_enable
          (w.log ++ [Event.regulator_enable Rail.vcc (env.regulator_enable w.log Rail.vcc)])
          Rail.iovcc < 0 := h2
      simp only [if_neg h1, if_neg h2]
      simp [regulator_enable, regulator_disable, h1a, h2a, Hw.record, vcc_ret,
        iovcc_ret, gpiod_set_value_cansleep, usleep_range, msleep, prepare_prelude]

/-! ## C1: what prepare returns when the init sequence fails -/

/-- C1 (evaluation of the code): with both rails enabling (return code 0) and a
bus that fails the first command of the init sequence with -5, the batch of
each variant accumulates -5 and `st7703_prepare` disables the I/O rail and
then the core rail, yet returns 0: the `ret` it returns is still the return
code of `regulator_enable(ctx->iovcc)`, not the accumulated error. -/
theorem st7703_prepare_init_failure_returns_zero :
    (xbd599_init_sequence env_bus_dead ({ accum_err := 0 }, hw_off)).1.accum_err = -5 ∧
    st7703_prepare env_bus_dead xbd599_desc hw_off =
      (0, { vcc := false, iovcc := false, reset_gpio := 0,
            log := [Event.regulator_enable Rail.vcc 0, Event.regulator_enable Rail.iovcc 0,
              Event.gpiod_set_value 1, Event.usleep_range 20 40, Event.gpiod_set_value 0,
              Event.msleep 20,
              Event.dsi_transfer (Cmd.dcs_write_seq 0xB9 [0xF1, 0x12, 0x83]) (-5),
              Event.regulator_disable Rail.iovcc, Event.regulator_disable Rail.vcc] }) ∧
    (st7703_prepare env_bus_dead jh057n00900_panel_desc hw_off).1 = 0 ∧
    (st7703_prepare env_bus_dead gx040hd_desc hw_off).1 = 0 := by
  refine ⟨?_, ?_, ?_, ?_⟩ <;> rfl

theorem batch_err_nonpos (env : Env) :
    ∀ (steps : List Step) (h : List Event), batch_err env steps h ≤ 0 := by
  intro steps
  induction steps with
  | nil => intro h; simp [batch_err]
  | cons s rest ih =>
    intro h
    cases s with
    | delay msecs => simpa [batch_err] using ih _
    | emit c =>
      simp only [batch_err]
      split
      · omega
      · exact ih _

/-- Whenever both rails enable and the batch of the init sequence ends with an
accumulated error, `st7703_prepare` returns the return code of the I/O rail
enable, which is not negative, instead of the accumulated error, which is. -/
theorem st7703_prepare_init_failure_ret (env : Env) (desc : st7703_panel_desc)
    (hd : desc ∈ st7703_variants) (w : Hw)
    (hvcc : 0 ≤ vcc_ret env w) (hio : 0 ≤ iovcc_ret env w)
    (herr : (desc.init_sequence env ({ accum_err := 0 }, after_prelude env w)).1.accum_err
      ≠ 0) :
    (st7703_prepare env desc w).1 = iovcc_ret env w ∧
    (st7703_prepare env desc w).1 ≠
      (desc.init_sequence env ({ accum_err := 0 }, after_prelude env w)).1.accum_err := by
  have hne : (st7703_prepare env desc w).1 = iovcc_ret env w →
      (st7703_prepare env desc w).1 ≠
        (desc.init_sequence env ({ accum_err := 0 }, after_prelude env w)).1.accum_err := by
    intro heq
    rw [heq, variant_init_sequence_steps desc hd, run_steps_clear]
    have hneg := batch_err_nonpos env (steps_of desc.init_sequence) (after_prelude env w).log
    rw [variant_init_sequence_steps desc hd, run_steps_clear] at herr
    simp only at herr ⊢
    omega
  refine ⟨?_, hne ?_⟩ <;>
  rw [variant_init_sequence_steps desc hd, run_steps_clear] at herr <;>
  simp only [after_prelude] at herr <;>
  rw [st7703_prepare_eq env desc hd w, if_neg (by omega), if_neg (by omega), if_pos herr]

/-! ## C2: a bus failure on the N-th frame of the init sequence -/

theorem dsi_xfers_append (l1 l2 : List Event) :
    dsi_xfers (l1 ++ l2) = dsi_xfers l1 ++ dsi_xfers l2 := by
  simp [dsi_xfers]

theorem dsi_frames_append (l1 l2 : List Event) :
    dsi_frames (l1 ++ l2) = dsi_frames l1 ++ dsi_frames l2 := by
  simp [dsi_frames, dsi_xfers_append]

theorem dsi_xfers_prepare_prelude (r1 r2 : Int) : dsi_xfers (prepare_prelude r1 r2) = [] := by
  simp [dsi_xfers, prepare_prelude, Event.xfer]

theorem steps_frames (l : List Event) :
    (l.filterMap Event.step).filterMap Step.frame = dsi_frames l := by
  induction l with
  | nil => rfl
  | cons e rest ih =>
    cases e <;>
      simp_all [dsi_frames, dsi_xfers, Event.step, Event.xfer, Step.frame, List.filterMap_cons]

theorem frames_of_steps (init : Env → Batch → Batch) :
    (steps_of init).filterMap Step.frame = frames_of init :=
  steps_frames (init_log init)

theorem since_append (w : Hw) (a b : Bool) (g : Nat) (l : List Event) :
    Hw.since { vcc := a, iovcc := b, reset_gpio := g, log := w.log ++ l } w = l := by
  simp [Hw.since]

theorem batch_log_fail_at (env : Env) :
    ∀ (steps : List Step) (h : List Event) (n : Nat),
      n < (steps.filterMap Step.frame).length →
      (∀ k, k < n → ∀ x, (dsi_xfers (batch_log env steps h))[k]? = some x → 0 ≤ x.2) →
      (∀ x, (dsi_xfers (batch_log env steps h))[n]? = some x → x.2 < 0) →
      dsi_frames (batch_log env steps h) = (steps.filterMap Step.frame).take (n + 1) ∧
      batch_err env steps h ≠ 0 ∧
      ∃ pre c ret, batch_log env steps h = pre ++ [Event.dsi_transfer c ret] ∧ ret < 0 ∧
        (steps.filterMap Step.frame)[n]? = some c := by
  intro steps
  induction steps with
  | nil => intro h n hn; simp at hn
  | cons s rest ih =>
    intro h n hn hok hfail
    cases s with
    | delay msecs =>
      have hx : dsi_xfers (batch_log env (Step.delay msecs :: rest) h) =
          dsi_xfers (batch_log env rest (h ++ [Event.msleep msecs])) := by
        simp [batch_log, dsi_xfers, Event.xfer, List.filterMap_cons]
      rw [hx] at hok hfail
      have hn2 : n < (rest.filterMap Step.frame).length := by
        simpa [Step.frame, List.filterMap_cons] using hn
      obtain ⟨hf, he, pre, c, ret, hl, hr, hc⟩ := ih _ n hn2 hok hfail
      refine ⟨?_, ?_, Event.msleep msecs :: pre, c, ret, ?_, hr, ?_⟩
      · simpa [dsi_frames, hx, Step.frame, List.filterMap_cons] using hf
      · simpa [batch_err] using he
      · simp [batch_log, hl]
      · simpa [Step.frame, List.filterMap_cons] using hc
    | emit c =>
      by_cases hr : env.dsi_transfer h c < 0
      · -- the frame fails: it must be the n-th
        have hlog : batch_log env (Step.emit c :: rest) h =
            [Event.dsi_transfer c (env.dsi_transfer h c)] := by
          simp [batch_log, hr]
        rw [hlog] at hok hfail
        have hn0 : n = 0 := by
          by_contra hne
          have := hok 0 (Nat.pos_of_ne_zero hne) (c, env.dsi_transfer h c)
            (by simp [dsi_xfers, Event.xfer])
          simp at this
          omega
        subst hn0
        refine ⟨?_, ?_, [], c, env.dsi_transfer h c, ?_, hr, ?_⟩
        · simp [hlog, dsi_frames, dsi_xfers, Event.xfer, Step.frame, List.filterMap_cons]
        · simp [batch_err, hr]; omega
        · simp [hlog]
        · simp [Step.frame, List.filterMap_cons]
      · -- the frame is accepted: it is not the n-th
        have hlog : batch_log env (Step.emit c :: rest) h =
            Event.dsi_transfer c (env.dsi_transfer h c) ::
              batch_log env rest (h ++ [Event.dsi_transfer c (env.dsi_transfer h c)]) := by
          simp [batch_log, hr]
        have hx : dsi_xfers (batch_log env (Step.emit c :: rest) h) =
            (c, env.dsi_transfer h c) ::
              dsi_xfers (batch_log env rest
                (h ++ [Event.dsi_transfer c (env.dsi_transfer h c)])) := by
          simp [hlog, dsi_xfers, Event.xfer, List.filterMap_cons]
        rw [hx] at hok hfail
        cases n with
        | zero =>
          have := hfail (c, env.dsi_transfer h c) (by simp)
          exact absurd this hr
        | succ m =>
          have hn2 : m < (rest.filterMap Step.frame).length := by
            simpa [Step.frame, List.filterMap_cons] using hn
          have hok2 : ∀ k, k < m → ∀ x,
              (dsi_xfers (batch_log env rest
                (h ++ [Event.dsi_transfer c (env.dsi_transfer h c)])))[k]? = some x →
              0 ≤ x.2 := by
            intro k hk x hkx
            exact hok (k + 1) (by omega) x (by simpa using hkx)
          have hfail2 : ∀ x,
              (dsi_xfers (batch_log env rest
                (h ++ [Event.dsi_transfer c (env.dsi_transfer h c)])))[m]? = some x →
              x.2 < 0 := by
            intro x hmx
            exact hfail x (by simpa using hmx)
          obtain ⟨hf, he, pre, c2, ret, hl, hr2, hc⟩ := ih _ m hn2 hok2 hfail2
          refine ⟨?_, ?_, Event.dsi_transfer c (env.dsi_transfer h c) :: pre, c2, ret,
            ?_, hr2, ?_⟩
          · simp only [dsi_frames, hx, List.map_cons]
            simp only [dsi_frames] at hf
            simp [hf, Step.frame, List.filterMap_cons]
          · simpa [batch_err, hr] using he
          · simp [hlog, hl]
          · simpa [Step.frame, List.filterMap_cons] using hc

/-- C2: for each variant and each N from 1 to the number of frames of its init
sequence, when both rails enable and, in the run of `st7703_prepare`, the bus
accepts the first N-1 transfers and fails the N-th (all read off the log of
the run), then the frames handed to the bus are exactly the first N frames
of the sequence, in order; the failed frame N is the last event before the
two rail disables (no later frame, no later delay); and both rails are
disabled when prepare returns. -/
theorem st7703_prepare_fails_at_frame (env : Env) (desc : st7703_panel_desc)
    (hd : desc ∈ st7703_variants) (w : Hw) (N : Nat)
    (h1 : 1 ≤ N) (hN : N ≤ (frames_of desc.init_sequence).length)
    (hvcc : 0 ≤ vcc_ret env w) (hio : 0 ≤ iovcc_ret env w)
    (hok : ∀ k, k < N - 1 → ∀ x,
      (dsi_xfers ((st7703_prepare env desc w).2.since w))[k]? = some x → 0 ≤ x.2)
    (hfail : ∀ x,
      (dsi_xfers ((st7703_prepare env desc w).2.since w))[N - 1]? = some x → x.2 < 0) :
    dsi_frames ((st7703_prepare env desc w).2.since w) =
      (frames_of desc.init_sequence).take N ∧
    (∃ pre c ret, (frames_of desc.init_sequence)[N - 1]? = some c ∧ ret < 0 ∧
      (st7703_prepare env desc w).2.since w =
        pre ++ [Event.dsi_transfer c ret, Event.regulator_disable Rail.iovcc,
          Event.regulator_disable Rail.vcc]) ∧
    (st7703_prepare env desc w).2.vcc = false ∧
    (st7703_prepare env desc w).2.iovcc = false := by
  have hx : dsi_xfers ((st7703_prepare env desc w).2.since w) =
      dsi_xfers (batch_log env (steps_of desc.init_sequence)
        (w.log ++ prepare_prelude (vcc_ret env w) (iovcc_ret env w))) := by
    rw [st7703_prepare_eq env desc hd w, if_neg (by omega), if_neg (by omega)]
    split
    · simp only [List.append_assoc, since_append, dsi_xfers_append,
        dsi_xfers_prepare_prelude]
      simp [dsi_xfers, Event.xfer]
    · simp only [List.append_assoc, since_append, dsi_xfers_append,
        dsi_xfers_prepare_prelude]
      simp
  rw [hx] at hok hfail
  have hlen : N - 1 < ((steps_of desc.init_sequence).filterMap Step.frame).length := by
    rw [frames_of_steps]; omega
  obtain ⟨hf, he, pre, c, ret, hl, hr, hc⟩ :=
    batch_log_fail_at env (steps_of desc.init_sequence) _ (N - 1) hlen hok hfail
  rw [frames_of_steps, Nat.sub_add_cancel h1] at hf
  rw [frames_of_steps] at hc
  rw [st7703_prepare_eq env desc hd w, if_neg (by omega), if_neg (by omega), if_pos he]
  simp only [List.append_assoc, since_append]
  refine ⟨?_, ⟨prepare_prelude (vcc_ret env w) (iovcc_ret env w) ++ pre, c, ret, hc, hr, ?_⟩,
    trivial, trivial⟩
  · simp only [dsi_frames_append, hf]
    simp [dsi_frames, dsi_xfers, prepare_prelude, Event.xfer]
  · simp [hl]

theorem env_third_fails_xfers :
    dsi_xfers ((st7703_prepare env_third_fails jh057n00900_panel_desc hw_off).2.since hw_off) =
      [(Cmd.generic_write_seq 0xB9 [0xF1, 0x12, 0x83], 0),
       (Cmd.generic_write_seq 0xB3 [0x10, 0x10, 0x05, 0x05, 0x03, 0xFF, 0x00, 0x00,
          0x00, 0x00], 0),
       (Cmd.generic_write_seq 0xC0 [0x73, 0x73, 0x50, 0x50, 0x00, 0x00, 0x08, 0x70,
          0x00], -5)] := by
  rfl

/-- C2 at a concrete input: the jh057n00900 on a bus that fails its third
frame. -/
theorem st7703_prepare_fails_at_frame_witness :
    dsi_frames ((st7703_prepare env_third_fails jh057n00900_panel_desc hw_off).2.since hw_off) =
      (frames_of jh057n00900_panel_desc.init_sequence).take 3 ∧
    (∃ pre c ret, (frames_of jh057n00900_panel_desc.init_sequence)[3 - 1]? = some c ∧ ret < 0 ∧
      (st7703_prepare env_third_fails jh057n00900_panel_desc hw_off).2.since hw_off =
        pre ++ [Event.dsi_transfer c ret, Event.regulator_disable Rail.iovcc,
          Event.regulator_disable Rail.vcc]) ∧
    (st7703_prepare env_third_fails jh057n00900_panel_desc hw_off).2.vcc = false ∧
    (st7703_prepare env_third_fails jh057n00900_panel_desc hw_off).2.iovcc = false :=
  st7703_prepare_fails_at_frame env_third_fails jh057n00900_panel_desc
    (by simp [st7703_variants, st7703_of_match]) hw_off 3 (by decide) (by decide)
    (by decide) (by decide)
    (by
      intro k hk x hx
      rw [env_third_fails_xfers] at hx
      have hk2 : k = 0 ∨ k = 1 := by omega
      rcases hk2 with rfl | rfl <;> simp at hx <;> subst hx <;> decide)
    (by
      intro x hx
      rw [env_third_fails_xfers] at hx
      simp at hx
      subst hx
      decide)

/-! ## C3: power ordering on every path -/

theorem railmon_batch_log (env : Env) :
    ∀ (steps : List Step) (h : List Event) (m : RailMon),
      (batch_log env steps h).foldl RailMon.step m = m := by
  intro steps
  induction steps with
  | nil => intro h m; rfl
  | cons s rest ih =>
    intro h m
    cases s with
    | delay msecs => simp [batch_log, RailMon.step, ih]
    | emit c =>
      by_cases hr : env.dsi_transfer h c < 0
      · simp [batch_log, hr, RailMon.step]
      · simp [batch_log, hr, RailMon.step, ih]

/-- The monitor rejects the two reversed orders: an I/O rail enabled with the
core rail off, and a core rail disabled with the I/O rail still on. -/
theorem rail_order_ok_rejects :
    rail_order_ok false false [Event.regulator_enable Rail.iovcc 0] = false ∧
    rail_order_ok false false [Event.regulator_enable Rail.vcc 0,
      Event.regulator_enable Rail.iovcc 0, Event.regulator_disable Rail.vcc] = false := by
  decide

/-- C3: on every path of `st7703_prepare` (core-rail failure, I/O-rail failure,
init-sequence failure, success) of each variant, started with the I/O rail
not enabled, and on every path of `st7703_unprepare` (sleep command accepted
or failed), started with the rails in any state, the log of the call respects
the power ordering: the I/O rail is enabled only while the core rail is
enabled, and the core rail is disabled only once the I/O rail is disabled. -/
theorem st7703_power_ordering (env : Env) (desc : st7703_panel_desc)
    (hd : desc ∈ st7703_variants) (w : Hw) (vcc0 vcc1 iovcc1 : Bool) :
    rail_order_ok vcc0 false ((st7703_prepare env desc w).2.since w) = true ∧
    rail_order_ok vcc1 iovcc1 ((st7703_unprepare env w).2.since w) = true := by
  constructor
  · rw [st7703_prepare_eq env desc hd w]
    by_cases h1 : vcc_ret env w < 0
    · simp [h1, since_append, rail_order_ok, RailMon.step]
    · by_cases h2 : iovcc_ret env w < 0
      · have h1b : 0 ≤ vcc_ret env w := by omega
        simp [h1, h2, since_append, rail_order_ok, RailMon.step, h1b]
      · have h1b : 0 ≤ vcc_ret env w := by omega
        have h2b : 0 ≤ iovcc_ret env w := by omega
        simp only [if_neg h1, if_neg h2]
        split
        · simp [List.append_assoc, since_append, rail_order_ok, List.foldl_append,
            prepare_prelude, RailMon.step, railmon_batch_log, h1b, h2b]
        · simp [List.append_assoc, since_append, rail_order_ok, List.foldl_append,
            prepare_prelude, RailMon.step, railmon_batch_log, h1b, h2b]
  · by_cases hr : env.dsi_transfer w.log Cmd.dcs_enter_sleep_mode < 0
    · have hne : env.dsi_transfer w.log Cmd.dcs_enter_sleep_mode ≠ 0 := by omega
      simp [st7703_unprepare, mipi_dsi_dcs_enter_sleep_mode_multi, mipi_dsi_multi,
        mipi_dsi_msleep, hr, hne, gpiod_set_value_cansleep, regulator_disable, Hw.record,
        Hw.since, rail_order_ok, RailMon.step]
    · simp [st7703_unprepare, mipi_dsi_dcs_enter_sleep_mode_multi, mipi_dsi_multi,
        mipi_dsi_msleep, msleep, hr, gpiod_set_value_cansleep, regulator_disable, Hw.record,
        Hw.since, rail_order_ok, RailMon.step]

/-- C3 at a concrete input: the XBD599 on a bus that fails every transfer. -/
theorem st7703_power_ordering_witness :
    rail_order_ok false false
      ((st7703_prepare env_bus_dead xbd599_desc hw_off).2.since hw_off) = true ∧
    rail_order_ok true true ((st7703_unprepare env_bus_dead hw_off).2.since hw_off) = true :=
  st7703_power_ordering env_bus_dead xbd599_desc
    (by simp [st7703_variants, st7703_of_match]) hw_off false true true

/-! ## C4: unprepare always powers down -/

/-- C4: for every bus behaviour, `st7703_unprepare` hands the enter-sleep
command to the bus, waits 120 ms only if it was accepted, and then in every
case asserts reset, disables the I/O rail and then the core rail; it ends with
reset asserted and both rails disabled, and returns the result of the
enter-sleep command (its error if negative, 0 otherwise).  In particular this
is the state after a prepare of any variant followed at once by unprepare. -/
theorem st7703_unprepare_powers_down (env : Env) (w : Hw) :
    st7703_unprepare env w =
      (if env.dsi_transfer w.log Cmd.dcs_enter_sleep_mode < 0
        then env.dsi_transfer w.log Cmd.dcs_enter_sleep_mode else 0,
        { vcc := false, iovcc := false, reset_gpio := 1,
          log := w.log ++
            Event.dsi_transfer Cmd.dcs_enter_sleep_mode
              (env.dsi_transfer w.log Cmd.dcs_enter_sleep_mode) ::
            ((if env.dsi_transfer w.log Cmd.dcs_enter_sleep_mode < 0 then []
              else [Event.msleep 120]) ++
             [Event.gpiod_set_value 1, Event.regulator_disable Rail.iovcc,
              Event.regulator_disable Rail.vcc]) }) ∧
    (∀ desc : st7703_panel_desc,
      (st7703_unprepare env (st7703_prepare env desc w).2).2.vcc = false ∧
      (st7703_unprepare env (st7703_prepare env desc w).2).2.iovcc = false ∧
      (st7703_unprepare env (st7703_prepare env desc w).2).2.reset_gpio = 1) := by
  constructor
  · by_cases hr : env.dsi_transfer w.log Cmd.dcs_enter_sleep_mode < 0
    · have hne : env.dsi_transfer w.log Cmd.dcs_enter_sleep_mode ≠ 0 := by omega
      simp [st7703_unprepare, mipi_dsi_dcs_enter_sleep_mode_multi, mipi_dsi_multi,
        mipi_dsi_msleep, hr, hne, gpiod_set_value_cansleep, regulator_disable, Hw.record]
    · simp [st7703_unprepare, mipi_dsi_dcs_enter_sleep_mode_multi, mipi_dsi_multi,
        mipi_dsi_msleep, msleep, hr, gpiod_set_value_cansleep, regulator_disable, Hw.record]
  · intro desc
    simp [st7703_unprepare, gpiod_set_value_cansleep, regulator_disable, Hw.record]

/-! ## C5: a rail that fails to enable -/

/-- C5: if the core rail fails to enable, `st7703_prepare` returns its error
and has done nothing else (the I/O rail is not touched, no frame is sent,
reset and both rails are as before); if the core rail enables and the I/O
rail fails, prepare returns the I/O rail's error after disabling the core
rail, with no frame sent and the reset line and the I/O rail as before. -/
theorem st7703_prepare_rail_failure (env : Env) (desc : st7703_panel_desc) (w : Hw) :
    (vcc_ret env w < 0 →
      st7703_prepare env desc w =
        (vcc_ret env w,
          { w with log := w.log ++ [Event.regulator_enable Rail.vcc (vcc_ret env w)] })) ∧
    (0 ≤ vcc_ret env w → iovcc_ret env w < 0 →
      st7703_prepare env desc w =
        (iovcc_ret env w,
          { w with
            vcc := false
            log := w.log ++ [Event.regulator_enable Rail.vcc (vcc_ret env w),
              Event.regulator_enable Rail.iovcc (iovcc_ret env w),
              Event.regulator_disable Rail.vcc] })) := by
  constructor
  · intro h1
    have h1a : env.regulator_enable w.log Rail.vcc < 0 := h1
    simp [st7703_prepare, regulator_enable, h1a, Hw.record, vcc_ret]
  · intro h1 h2
    have h1a : ¬ env.regulator_enable w.log Rail.vcc < 0 := by
      have : 0 ≤ env.regulator_enable w.log Rail.vcc := h1
      omega
    have h2a : env.regulator_enable
        (w.log ++ [Event.regulator_enable Rail.vcc (env.regulator_enable w.log Rail.vcc)])
        Rail.iovcc < 0 := h2
    simp [st7703_prepare, regulator_enable, regulator_disable, h1a, h2a, Hw.record, vcc_ret,
      iovcc_ret]

/-- C5 at concrete inputs: a core rail that fails with -22, and an I/O rail
that fails with -22 behind a core rail that enables, each on the GX040HD from
the state after probe. -/
theorem st7703_prepare_rail_failure_witness :
    st7703_prepare env_vcc_fails gx040hd_desc hw_off =
      (-22, { hw_off with log := [Event.regulator_enable Rail.vcc (-22)] }) ∧
    st7703_prepare env_iovcc_fails gx040hd_desc hw_off =
      (-22, { hw_off with
        vcc := false
        log := [Event.regulator_enable Rail.vcc 0, Event.regulator_enable Rail.iovcc (-22),
          Event.regulator_disable Rail.vcc] }) :=
  ⟨(st7703_prepare_rail_failure env_vcc_fails gx040hd_desc hw_off).1 (by decide),
   (st7703_prepare_rail_failure env_iovcc_fails gx040hd_desc hw_off).2 (by decide)
     (by decide)⟩

/-! ## C6: the whole lifecycle on an accepting bus -/

theorem batch_accepted (env : Env) (hbus : ∀ h c, 0 ≤ env.dsi_transfer h c) :
    ∀ (steps : List Step) (h : List Event),
      batch_err env steps h = 0 ∧
      (batch_log env steps h).filterMap Event.step = steps := by
  intro steps
  induction steps with
  | nil => intro h; simp [batch_err, batch_log]
  | cons s rest ih =>
    intro h
    cases s with
    | delay msecs =>
      simp [batch_err, batch_log, Event.step, List.filterMap_cons, ih]
    | emit c =>
      have hr : ¬ env.dsi_transfer h c < 0 := by
        have := hbus h c
        omega
      simp [batch_err, batch_log, hr, Event.step, List.filterMap_cons, ih]

theorem batch_accepted_frames (env : Env) (hbus : ∀ h c, 0 ≤ env.dsi_transfer h c)
    (steps : List Step) (h : List Event) :
    dsi_frames (batch_log env steps h) = steps.filterMap Step.frame := by
  rw [← steps_frames, (batch_accepted env hbus steps h).2]

theorem variant_frames_count (desc : st7703_panel_desc) (hd : desc ∈ st7703_variants) :
    (frames_of desc.init_sequence).count Cmd.dcs_exit_sleep_mode = 0 ∧
    (frames_of desc.init_sequence).count Cmd.dcs_set_display_on = 0 ∧
    (frames_of desc.init_sequence).count Cmd.dcs_set_display_off = 0 ∧
    (frames_of desc.init_sequence).count Cmd.dcs_enter_sleep_mode = 0 := by
  simp [st7703_variants, st7703_of_match] at hd
  rcases hd with rfl | rfl | rfl <;> decide

/-- C6: for each variant, with rails that always enable and a bus that accepts
every command, prepare, enable, disable, unprepare all return 0 and end with
both rails disabled and reset asserted; the frames the bus sees over the
whole run are the init sequence followed by exit-sleep, display-on,
display-off, enter-sleep, each of the four exactly once; and the run ends
with exit-sleep, 250 ms, display-on, 50 ms, display-off, 120 ms, enter-sleep,
120 ms, reset asserted, I/O rail disabled, core rail disabled. -/
theorem lifecycle_on_accepting_bus (env : Env) (desc : st7703_panel_desc)
    (hd : desc ∈ st7703_variants) (w : Hw)
    (hreg : ∀ h r, 0 ≤ env.regulator_enable h r)
    (hbus : ∀ h c, 0 ≤ env.dsi_transfer h c) :
    (lifecycle env desc w).1 = (0, 0, 0, 0) ∧
    (lifecycle env desc w).2.vcc = false ∧
    (lifecycle env desc w).2.iovcc = false ∧
    (lifecycle env desc w).2.reset_gpio = 1 ∧
    dsi_frames ((lifecycle env desc w).2.since w) =
      frames_of desc.init_sequence ++
        [Cmd.dcs_exit_sleep_mode, Cmd.dcs_set_display_on, Cmd.dcs_set_display_off,
          Cmd.dcs_enter_sleep_mode] ∧
    (dsi_frames ((lifecycle env desc w).2.since w)).count Cmd.dcs_exit_sleep_mode = 1 ∧
    (dsi_frames ((lifecycle env desc w).2.since w)).count Cmd.dcs_set_display_on = 1 ∧
    (dsi_frames ((lifecycle env desc w).2.since w)).count Cmd.dcs_set_display_off = 1 ∧
    (dsi_frames ((lifecycle env desc w).2.since w)).count Cmd.dcs_enter_sleep_mode = 1 ∧
    ∃ pre r1 r2 r3 r4, dsi_frames pre = frames_of desc.init_sequence ∧
      (lifecycle env desc w).2.since w =
        pre ++ [Event.dsi_transfer Cmd.dcs_exit_sleep_mode r1, Event.msleep 250,
          Event.dsi_transfer Cmd.dcs_set_display_on r2, Event.msleep 50,
          Event.dsi_transfer Cmd.dcs_set_display_off r3, Event.msleep 120,
          Event.dsi_transfer Cmd.dcs_enter_sleep_mode r4, Event.msleep 120,
          Event.gpiod_set_value 1, Event.regulator_disable Rail.iovcc,
          Event.regulator_disable Rail.vcc] := by
  have hv : ¬ vcc_ret env w < 0 := by
    have := hreg w.log Rail.vcc
    simp only [vcc_ret]; omega
  have hi : ¬ iovcc_ret env w < 0 := by
    have := hreg (w.log ++ [Event.regulator_enable Rail.vcc (vcc_ret env w)]) Rail.iovcc
    simp only [iovcc_ret]; omega
  have hnot : ∀ h c, ¬ env.dsi_transfer h c < 0 := by
    intro h c
    have := hbus h c
    omega
  have hfr := batch_accepted_frames env hbus (steps_of desc.init_sequence)
    (w.log ++ prepare_prelude (vcc_ret env w) (iovcc_ret env w))
  rw [frames_of_steps] at hfr
  obtain ⟨hc1, hc2, hc3, hc4⟩ := variant_frames_count desc hd
  have hp : st7703_prepare env desc w =
      (0, { vcc := true, iovcc := true, reset_gpio := 0,
            log := w.log ++ (prepare_prelude (vcc_ret env w) (iovcc_ret env w) ++
              batch_log env (steps_of desc.init_sequence)
                (w.log ++ prepare_prelude (vcc_ret env w) (iovcc_ret env w))) }) := by
    rw [st7703_prepare_eq env desc hd w, if_neg hv, if_neg hi,
      if_neg (by simp [(batch_accepted env hbus _ _).1])]
    simp
  have hfull : dsi_frames ((lifecycle env desc w).2.since w) =
      frames_of desc.init_sequence ++
        [Cmd.dcs_exit_sleep_mode, Cmd.dcs_set_display_on, Cmd.dcs_set_display_off,
          Cmd.dcs_enter_sleep_mode] := by
    simp [lifecycle, hp, st7703_enable, st7703_disable, st7703_unprepare,
      mipi_dsi_dcs_exit_sleep_mode_multi, mipi_dsi_dcs_set_display_on_multi,
      mipi_dsi_dcs_set_display_off_multi, mipi_dsi_dcs_enter_sleep_mode_multi,
      mipi_dsi_multi, mipi_dsi_msleep, msleep, hnot, gpiod_set_value_cansleep,
      regulator_disable, Hw.record, Hw.since, dsi_frames_append, hfr]
    simp [dsi_frames, dsi_xfers, prepare_prelude, Event.xfer]
  refine ⟨?_, ?_, ?_, ?_, hfull, ?_, ?_, ?_, ?_, ?_⟩
  · simp [lifecycle, hp, st7703_enable, st7703_disable, st7703_unprepare,
      mipi_dsi_dcs_exit_sleep_mode_multi, mipi_dsi_dcs_set_display_on_multi,
      mipi_dsi_dcs_set_display_off_multi, mipi_dsi_dcs_enter_sleep_mode_multi,
      mipi_dsi_multi, mipi_dsi_msleep, msleep, hnot, Hw.record]
  · simp [lifecycle, st7703_unprepare, gpiod_set_value_cansleep, regulator_disable, Hw.record]
  · simp [lifecycle, st7703_unprepare, gpiod_set_value_cansleep, regulator_disable, Hw.record]
  · simp [lifecycle, st7703_unprepare, gpiod_set_value_cansleep, regulator_disable, Hw.record]
  · rw [hfull, List.count_append, hc1]; decide
  · rw [hfull, List.count_append, hc2]; decide
  · rw [hfull, List.count_append, hc3]; decide
  · rw [hfull, List.count_append, hc4]; decide
  · have hpre : dsi_frames (prepare_prelude (vcc_ret env w) (iovcc_ret env w) ++
        batch_log env (steps_of desc.init_sequence)
          (w.log ++ prepare_prelude (vcc_ret env w) (iovcc_ret env w))) =
        frames_of desc.init_sequence := by
      rw [dsi_frames_append, hfr]
      simp [dsi_frames, dsi_xfers, prepare_prelude, Event.xfer]
    refine ⟨prepare_prelude (vcc_ret env w) (iovcc_ret env w) ++
        batch_log env (steps_of desc.init_sequence)
          (w.log ++ prepare_prelude (vcc_ret env w) (iovcc_ret env w)), ?_⟩
    simp only [hpre, true_and]
    simp [lifecycle, hp, st7703_enable, st7703_disable, st7703_unprepare,
      mipi_dsi_dcs_exit_sleep_mode_multi, mipi_dsi_dcs_set_display_on_multi,
      mipi_dsi_dcs_set_display_off_multi, mipi_dsi_dcs_enter_sleep_mode_multi,
      mipi_dsi_multi, mipi_dsi_msleep, msleep, hnot, gpiod_set_value_cansleep,
      regulator_disable, Hw.record, Hw.since]

/-- C6 at a concrete input: the XBD599 from the state after probe, with rails
and bus that answer 0 to everything. -/
theorem lifecycle_on_accepting_bus_witness :
    (lifecycle env_ok xbd599_desc hw_off).1 = (0, 0, 0, 0) ∧
    (lifecycle env_ok xbd599_desc hw_off).2.vcc = false ∧
    (lifecycle env_ok xbd599_desc hw_off).2.iovcc = false ∧
    (lifecycle env_ok xbd599_desc hw_off).2.reset_gpio = 1 ∧
    dsi_frames ((lifecycle env_ok xbd599_desc hw_off).2.since hw_off) =
      frames_of xbd599_desc.init_sequence ++
        [Cmd.dcs_exit_sleep_mode, Cmd.dcs_set_display_on, Cmd.dcs_set_display_off,
          Cmd.dcs_enter_sleep_mode] ∧
    (dsi_frames ((lifecycle env_ok xbd599_desc hw_off).2.since hw_off)).count
      Cmd.dcs_exit_sleep_mode = 1 ∧
    (dsi_frames ((lifecycle env_ok xbd599_desc hw_off).2.since hw_off)).count
      Cmd.dcs_set_display_on = 1 ∧
    (dsi_frames ((lifecycle env_ok xbd599_desc hw_off).2.since hw_off)).count
      Cmd.dcs_set_display_off = 1 ∧
    (dsi_frames ((lifecycle env_ok xbd599_desc hw_off).2.since hw_off)).count
      Cmd.dcs_enter_sleep_mode = 1 ∧
    ∃ pre r1 r2 r3 r4, dsi_frames pre = frames_of xbd599_desc.init_sequence ∧
      (lifecycle env_ok xbd599_desc hw_off).2.since hw_off =
        pre ++ [Event.dsi_transfer Cmd.dcs_exit_sleep_mode r1, Event.msleep 250,
          Event.dsi_transfer Cmd.dcs_set_display_on r2, Event.msleep 50,
          Event.dsi_transfer Cmd.dcs_set_display_off r3, Event.msleep 120,
          Event.dsi_transfer Cmd.dcs_enter_sleep_mode r4, Event.msleep 120,
          Event.gpiod_set_value 1, Event.regulator_disable Rail.iovcc,
          Event.regulator_disable Rail.vcc] :=
  lifecycle_on_accepting_bus env_ok xbd599_desc
    (by simp [st7703_variants, st7703_of_match]) hw_off
    (fun _ _ => le_refl 0) (fun _ _ => le_refl 0)

/-! ## C7: the enable callback -/

/-- C7: `st7703_enable` runs exit-sleep, 250 ms, display-on, 50 ms on a fresh
batch and returns its accumulated error.  If exit-sleep fails, its error is
returned and nothing else is done (no display-on, neither delay); if only
display-on fails, its error is returned and the 50 ms delay is skipped;
otherwise 0 is returned after all four steps.  Rails and reset are never
touched. -/
theorem st7703_enable_batch (env : Env) (w : Hw) :
    st7703_enable env w =
      if exit_sleep_ret env w < 0 then
        (exit_sleep_ret env w,
          { w with log := w.log ++
              [Event.dsi_transfer Cmd.dcs_exit_sleep_mode (exit_sleep_ret env w)] })
      else if display_on_ret env w < 0 then
        (display_on_ret env w,
          { w with log := w.log ++
              [Event.dsi_transfer Cmd.dcs_exit_sleep_mode (exit_sleep_ret env w),
                Event.msleep 250,
                Event.dsi_transfer Cmd.dcs_set_display_on (display_on_ret env w)] })
      else
        (0,
          { w with log := w.log ++
              [Event.dsi_transfer Cmd.dcs_exit_sleep_mode (exit_sleep_ret env w),
                Event.msleep 250,
                Event.dsi_transfer Cmd.dcs_set_display_on (display_on_ret env w),
                Event.msleep 50] }) := by
  by_cases h1 : exit_sleep_ret env w < 0
  · have h1a : env.dsi_transfer w.log Cmd.dcs_exit_sleep_mode < 0 := h1
    have h1b : env.dsi_transfer w.log Cmd.dcs_exit_sleep_mode ≠ 0 := by omega
    simp [st7703_enable, mipi_dsi_dcs_exit_sleep_mode_multi,
      mipi_dsi_dcs_set_display_on_multi, mipi_dsi_multi, mipi_dsi_msleep, h1a, h1b,
      Hw.record, exit_sleep_ret]
  · have h1a : ¬ env.dsi_transfer w.log Cmd.dcs_exit_sleep_mode < 0 := h1
    by_cases h2 : display_on_ret env w < 0
    · have h2a : env.dsi_transfer
          (w.log ++ [Event.dsi_transfer Cmd.dcs_exit_sleep_mode
            (env.dsi_transfer w.log Cmd.dcs_exit_sleep_mode), Event.msleep 250])
          Cmd.dcs_set_display_on < 0 := h2
      have h2b : env.dsi_transfer
          (w.log ++ [Event.dsi_transfer Cmd.dcs_exit_sleep_mode
            (env.dsi_transfer w.log Cmd.dcs_exit_sleep_mode), Event.msleep 250])
          Cmd.dcs_set_display_on ≠ 0 := by omega
      simp [st7703_enable, mipi_dsi_dcs_exit_sleep_mode_multi,
        mipi_dsi_dcs_set_display_on_multi, mipi_dsi_multi, mipi_dsi_msleep, msleep, h1a,
        h2a, h2b, Hw.record, exit_sleep_ret, display_on_ret]
    · have h2a : ¬ env.dsi_transfer
          (w.log ++ [Event.dsi_transfer Cmd.dcs_exit_sleep_mode
            (env.dsi_transfer w.log Cmd.dcs_exit_sleep_mode), Event.msleep 250])
          Cmd.dcs_set_display_on < 0 := h2
      simp [st7703_enable, mipi_dsi_dcs_exit_sleep_mode_multi,
        mipi_dsi_dcs_set_display_on_multi, mipi_dsi_multi, mipi_dsi_msleep, msleep, h1a,
        h2a, Hw.record, exit_sleep_ret, display_on_ret]

/-- The three paths of `st7703_enable` at concrete inputs: a bus that fails
everything, one that fails all but exit-sleep, one that accepts everything. -/
theorem st7703_enable_paths :
    st7703_enable env_bus_dead hw_off =
      (-5, { hw_off with log := [Event.dsi_transfer Cmd.dcs_exit_sleep_mode (-5)] }) ∧
    st7703_enable env_display_on_fails hw_off =
      (-5, { hw_off with log := [Event.dsi_transfer Cmd.dcs_exit_sleep_mode 0,
        Event.msleep 250, Event.dsi_transfer Cmd.dcs_set_display_on (-5)] }) ∧
    st7703_enable env_ok hw_off =
      (0, { hw_off with log := [Event.dsi_transfer Cmd.dcs_exit_sleep_mode 0,
        Event.msleep 250, Event.dsi_transfer Cmd.dcs_set_display_on 0, Event.msleep 50] }) := by
  decide

/-! ## C8: the event order of prepare -/

theorem batch_log_steps_only (env : Env) :
    ∀ (steps : List Step) (h : List Event),
      ∀ e ∈ batch_log env steps h, (Event.step e).isSome = true := by
  intro steps
  induction steps with
  | nil => intro h e he; simp [batch_log] at he
  | cons s rest ih =>
    intro h e he
    cases s with
    | delay msecs =>
      simp only [batch_log, List.mem_cons] at he
      rcases he with rfl | he
      · rfl
      · exact ih _ e he
    | emit c =>
      simp only [batch_log, List.mem_cons] at he
      rcases he with rfl | he
      · rfl
      · split at he
        · simp at he
        · exact ih _ e he

/-- The event order of prepare, with success read as the batch ending with a
clear error flag: in every run of `st7703_prepare` of a variant in which both
rails enable, the log of the call is the prelude (core rail enabled, I/O rail
enabled, reset asserted, 20-40 us, reset released, 20 ms), then the events
`l` of the init sequence, then a tail.  `l` is what one run of the variant's
init sequence on a batch with a clear error flag appends, started from the
hardware as the prelude left it (both rails on, reset released), and it holds
only frames and batch delays, so every frame comes after the prelude.  The
tail is empty if the batch ended with a clear flag, and then prepare returns
0 with reset released and both rails enabled; otherwise the tail is the two
rail disables. -/
theorem st7703_prepare_event_order (env : Env) (desc : st7703_panel_desc)
    (hd : desc ∈ st7703_variants) (w : Hw)
    (hvcc : 0 ≤ vcc_ret env w) (hio : 0 ≤ iovcc_ret env w) :
    ∃ l tail,
      (st7703_prepare env desc w).2.since w =
        prepare_prelude (vcc_ret env w) (iovcc_ret env w) ++ l ++ tail ∧
      (desc.init_sequence env ({ accum_err := 0 }, after_prelude env w)).2 =
        { after_prelude env w with log := (after_prelude env w).log ++ l } ∧
      (∀ e ∈ l, (Event.step e).isSome = true) ∧
      dsi_frames (prepare_prelude (vcc_ret env w) (iovcc_ret env w)) = [] ∧
      ((desc.init_sequence env ({ accum_err := 0 }, after_prelude env w)).1.accum_err = 0 →
        tail = [] ∧ (st7703_prepare env desc w).1 = 0 ∧
        (st7703_prepare env desc w).2.reset_gpio = 0 ∧
        (st7703_prepare env desc w).2.vcc = true ∧
        (st7703_prepare env desc w).2.iovcc = true) ∧
      ((desc.init_sequence env ({ accum_err := 0 }, after_prelude env w)).1.accum_err ≠ 0 →
        tail = [Event.regulator_disable Rail.iovcc, Event.regulator_disable Rail.vcc]) := by
  by_cases he : batch_err env (steps_of desc.init_sequence) (after_prelude env w).log = 0
  · refine ⟨batch_log env (steps_of desc.init_sequence) (after_prelude env w).log, [],
      ?_, ?_, batch_log_steps_only env _ _, ?_, ?_, ?_⟩
    · have he2 := he
      simp only [after_prelude] at he2
      rw [st7703_prepare_eq env desc hd w, if_neg (by omega), if_neg (by omega),
        if_neg (by simp [he2])]
      simp [List.append_assoc, since_append, after_prelude]
    · rw [variant_init_sequence_steps desc hd, run_steps_clear]
    · simp [dsi_frames, dsi_xfers, prepare_prelude, Event.xfer]
    · intro _
      have he2 := he
      simp only [after_prelude] at he2
      rw [st7703_prepare_eq env desc hd w, if_neg (by omega), if_neg (by omega),
        if_neg (by simp [he2])]
      simp
    · intro hne
      rw [variant_init_sequence_steps desc hd, run_steps_clear] at hne
      exact absurd he hne
  · refine ⟨batch_log env (steps_of desc.init_sequence) (after_prelude env w).log,
      [Event.regulator_disable Rail.iovcc, Event.regulator_disable Rail.vcc],
      ?_, ?_, batch_log_steps_only env _ _, ?_, ?_, ?_⟩
    · have he2 := he
      simp only [after_prelude] at he2
      rw [st7703_prepare_eq env desc hd w, if_neg (by omega), if_neg (by omega), if_pos he2]
      simp [List.append_assoc, since_append, after_prelude]
    · rw [variant_init_sequence_steps desc hd, run_steps_clear]
    · simp [dsi_frames, dsi_xfers, prepare_prelude, Event.xfer]
    · intro h0
      rw [variant_init_sequence_steps desc hd, run_steps_clear] at h0
      exact absurd h0 he
    · intro _
      rfl

/-- The event order of prepare at a concrete input: the jh057n00900 on a bus
that fails its third frame, from the state after probe. -/
theorem st7703_prepare_event_order_witness :
    ∃ l tail,
      (st7703_prepare env_third_fails jh057n00900_panel_desc hw_off).2.since hw_off =
        prepare_prelude (vcc_ret env_third_fails hw_off) (iovcc_ret env_third_fails hw_off) ++
          l ++ tail ∧
      (jh057n00900_panel_desc.init_sequence env_third_fails
          ({ accum_err := 0 }, after_prelude env_third_fails hw_off)).2 =
        { after_prelude env_third_fails hw_off with
          log := (after_prelude env_third_fails hw_off).log ++ l } ∧
      (∀ e ∈ l, (Event.step e).isSome = true) ∧
      dsi_frames (prepare_prelude (vcc_ret env_third_fails hw_off)
        (iovcc_ret env_third_fails hw_off)) = [] ∧
      ((jh057n00900_panel_desc.init_sequence env_third_fails
          ({ accum_err := 0 }, after_prelude env_third_fails hw_off)).1.accum_err = 0 →
        tail = [] ∧ (st7703_prepare env_third_fails jh057n00900_panel_desc hw_off).1 = 0 ∧
        (st7703_prepare env_third_fails jh057n00900_panel_desc hw_off).2.reset_gpio = 0 ∧
        (st7703_prepare env_third_fails jh057n00900_panel_desc hw_off).2.vcc = true ∧
        (st7703_prepare env_third_fails jh057n00900_panel_desc hw_off).2.iovcc = true) ∧
      ((jh057n00900_panel_desc.init_sequence env_third_fails
          ({ accum_err := 0 }, after_prelude env_third_fails hw_off)).1.accum_err ≠ 0 →
        tail = [Event.regulator_disable Rail.iovcc, Event.regulator_disable Rail.vcc]) :=
  st7703_prepare_event_order env_third_fails jh057n00900_panel_desc
    (by simp [st7703_variants, st7703_of_match]) hw_off (by decide) (by decide)

/-- C8 (evaluation of the code): on the jh057n00900 from the state after
probe, with both rails enabling (return code 0) and a bus that accepts two
frames and fails the third with -5, the log of `st7703_prepare` starts with
the prelude in the claimed order and the batch accumulates -5, yet prepare
returns 0, the value it returns on success, while both rails are disabled:
a prepare that reports success does not leave both rails enabled.  The same
holds on the XBD599 with a bus that fails every transfer. -/
theorem st7703_prepare_success_rails_off :
    ((st7703_prepare env_third_fails jh057n00900_panel_desc hw_off).2.since hw_off).take 6 =
      prepare_prelude 0 0 ∧
    (jh057n_init_sequence env_third_fails
      ({ accum_err := 0 }, after_prelude env_third_fails hw_off)).1.accum_err = -5 ∧
    (st7703_prepare env_third_fails jh057n00900_panel_desc hw_off).1 = 0 ∧
    (st7703_prepare env_third_fails jh057n00900_panel_desc hw_off).2.reset_gpio = 0 ∧
    (st7703_prepare env_third_fails jh057n00900_panel_desc hw_off).2.vcc = false ∧
    (st7703_prepare env_third_fails jh057n00900_panel_desc hw_off).2.iovcc = false ∧
    (st7703_prepare env_bus_dead xbd599_desc hw_off).1 = 0 ∧
    (st7703_prepare env_bus_dead xbd599_desc hw_off).2.vcc = false ∧
    (st7703_prepare env_bus_dead xbd599_desc hw_off).2.iovcc = false := by
  refine ⟨?_, ?_, ?_, ?_, ?_, ?_, ?_, ?_, ?_⟩ <;> rfl

/-! ## C9: the registry entry of the XBD599 -/

/-- C9: the registry maps "xingbangda,xbd599" to a descriptor with 4 lanes,
pixel format RGB888 and a mode of 720 x 1440 at clock 69000; it is the only
entry of the registry with that mode size and clock. -/
theorem st7703_of_match_xbd599 :
    (of_device_get_match_data "xingbangda,xbd599").map
        (fun d => (d.lanes, d.format, d.mode.hdisplay, d.mode.vdisplay, d.mode.clock)) =
      some (4, mipi_dsi_pixel_format.MIPI_DSI_FMT_RGB888, 720, 1440, 69000) ∧
    (st7703_of_match.filter (fun e => e.data.mode.hdisplay == 720 &&
        e.data.mode.vdisplay == 1440 && e.data.mode.clock == 69000)).map
        (fun e => e.compatible) = ["xingbangda,xbd599"] := by
  decide

/-! ## C10: the framing kind of each frame -/

theorem frames_on_accepting_bus (env : Env) (hbus : ∀ h c, 0 ≤ env.dsi_transfer h c)
    (desc : st7703_panel_desc) (hd : desc ∈ st7703_variants) (w : Hw) :
    frames_on env desc.init_sequence w = frames_of desc.init_sequence := by
  unfold frames_on
  rw [variant_init_sequence_steps desc hd, run_steps_clear]
  simp only [since_append]
  rw [batch_accepted_frames env hbus, frames_of_steps]

/-- C10: on every bus that accepts every command, from every hardware state,
the frames of `jh057n_init_sequence` are all sent with generic-write framing
except the last one, which is SETGAMMA (0xE0) sent with DCS-write framing;
the frames of `xbd599_init_sequence` and of `gx040hd_init_sequence` are all
sent with DCS-write framing, their last one being SETGAMMA too. -/
theorem init_sequence_framing (env : Env) (w : Hw)
    (hbus : ∀ h c, 0 ≤ env.dsi_transfer h c) :
    ((frames_on env jh057n_init_sequence w).dropLast.all Cmd.is_generic_write = true ∧
      (frames_on env jh057n_init_sequence w).getLast?.map
        (fun c => (c.is_dcs_write, c.opcode)) = some (true, some ST7703_CMD_SETGAMMA)) ∧
    ((frames_on env xbd599_init_sequence w).all Cmd.is_dcs_write = true ∧
      (frames_on env xbd599_init_sequence w).getLast?.map Cmd.opcode =
        some (some ST7703_CMD_SETGAMMA)) ∧
    ((frames_on env gx040hd_init_sequence w).all Cmd.is_dcs_write = true ∧
      (frames_on env gx040hd_init_sequence w).getLast?.map Cmd.opcode =
        some (some ST7703_CMD_SETGAMMA)) := by
  have hj := frames_on_accepting_bus env hbus jh057n00900_panel_desc
    (by simp [st7703_variants, st7703_of_match]) w
  have hx := frames_on_accepting_bus env hbus xbd599_desc
    (by simp [st7703_variants, st7703_of_match]) w
  have hg := frames_on_accepting_bus env hbus gx040hd_desc
    (by simp [st7703_variants, st7703_of_match]) w
  simp only [jh057n00900_panel_desc, xbd599_desc, gx040hd_desc] at hj hx hg
  rw [hj, hx, hg]
  decide

/-- C10 at a concrete input: the bus that answers 0 to everything, from the
state after probe. -/
theorem init_sequence_framing_witness :
    ((frames_on env_ok jh057n_init_sequence hw_off).dropLast.all Cmd.is_generic_write = true ∧
      (frames_on env_ok jh057n_init_sequence hw_off).getLast?.map
        (fun c => (c.is_dcs_write, c.opcode)) = some (true, some ST7703_CMD_SETGAMMA)) ∧
    ((frames_on env_ok xbd599_init_sequence hw_off).all Cmd.is_dcs_write = true ∧
      (frames_on env_ok xbd599_init_sequence hw_off).getLast?.map Cmd.opcode =
        some (some ST7703_CMD_SETGAMMA)) ∧
    ((frames_on env_ok gx040hd_init_sequence hw_off).all Cmd.is_dcs_write = true ∧
      (frames_on env_ok gx040hd_init_sequence hw_off).getLast?.map Cmd.opcode =
        some (some ST7703_CMD_SETGAMMA)) :=
  init_sequence_framing env_ok hw_off (fun _ _ => le_refl 0)

/-! ## C11: the unlock frame comes first -/

theorem prepare_xfers (env : Env) (desc : st7703_panel_desc)
    (hd : desc ∈ st7703_variants) (w : Hw) :
    dsi_xfers ((st7703_prepare env desc w).2.since w) = [] ∨
    dsi_xfers ((st7703_prepare env desc w).2.since w) =
      dsi_xfers (batch_log env (steps_of desc.init_sequence) (after_prelude env w).log) := by
  rw [st7703_prepare_eq env desc hd w]
  by_cases h1 : vcc_ret env w < 0
  · left
    simp [h1, since_append, dsi_xfers, Event.xfer]
  · by_cases h2 : iovcc_ret env w < 0
    · left
      simp [h1, h2, since_append, dsi_xfers, Event.xfer]
    · right
      simp only [if_neg h1, if_neg h2, after_prelude]
      split
      · simp only [List.append_assoc, since_append, dsi_xfers_append,
          dsi_xfers_prepare_prelude]
        simp [dsi_xfers, Event.xfer]
      · simp only [List.append_assoc, since_append, dsi_xfers_append,
          dsi_xfers_prepare_prelude]
        simp

theorem batch_log_first_frame (env : Env) :
    ∀ (steps : List Step) (h : List Event) (k : Nat) (x : Cmd × Int),
      (dsi_xfers (batch_log env steps h))[k]? = some x →
      ∃ c0 r0, (dsi_xfers (batch_log env steps h))[0]? = some (c0, r0) ∧
        (steps.filterMap Step.frame).head? = some c0 ∧ (0 < k → 0 ≤ r0) := by
  intro steps
  induction steps with
  | nil => intro h k x hx; simp [batch_log, dsi_xfers] at hx
  | cons s rest ih =>
    intro h k x hx
    cases s with
    | delay msecs =>
      have he : dsi_xfers (batch_log env (Step.delay msecs :: rest) h) =
          dsi_xfers (batch_log env rest (h ++ [Event.msleep msecs])) := by
        simp [batch_log, dsi_xfers, Event.xfer, List.filterMap_cons]
      rw [he] at hx ⊢
      obtain ⟨c0, r0, h0, hh, hr⟩ := ih _ k x hx
      exact ⟨c0, r0, h0, by simpa [Step.frame, List.filterMap_cons] using hh, hr⟩
    | emit c =>
      have he : dsi_xfers (batch_log env (Step.emit c :: rest) h) =
          (c, env.dsi_transfer h c) ::
            dsi_xfers (if env.dsi_transfer h c < 0 then []
              else batch_log env rest
                (h ++ [Event.dsi_transfer c (env.dsi_transfer h c)])) := by
        simp [batch_log, dsi_xfers, Event.xfer, List.filterMap_cons]
      rw [he] at hx ⊢
      refine ⟨c, env.dsi_transfer h c, by simp, by simp [Step.frame, List.filterMap_cons], ?_⟩
      intro hk
      by_contra hneg
      have hlt : env.dsi_transfer h c < 0 := by omega
      obtain ⟨m, rfl⟩ : ∃ m, k = m + 1 := ⟨k - 1, by omega⟩
      simp [hlt, dsi_xfers] at hx

theorem variant_first_last_frame (desc : st7703_panel_desc) (hd : desc ∈ st7703_variants) :
    (frames_of desc.init_sequence).head?.map (fun c => (c.opcode, c.seq)) =
      some (some ST7703_CMD_SETEXTC, [0xF1, 0x12, 0x83]) ∧
    (frames_of desc.init_sequence).getLast?.map (fun c => (c.opcode, c.seq.length)) =
      some (some ST7703_CMD_SETGAMMA, 34) := by
  simp [st7703_variants, st7703_of_match] at hd
  rcases hd with rfl | rfl | rfl <;> decide

/-- C11: for each variant, the first frame of the init sequence is SETEXTC
(0xB9) with parameters F1 12 83 and the last frame is SETGAMMA (0xE0) with 34
parameter bytes; and for every bus and regulator behaviour, whenever the log
of `st7703_prepare` holds a bus transfer, the first transfer of that log is
the unlock frame SETEXTC F1 12 83, and any later transfer is there only if the
unlock frame was accepted (return code not negative). -/
theorem st7703_prepare_unlock_first (env : Env) (desc : st7703_panel_desc)
    (hd : desc ∈ st7703_variants) (w : Hw) :
    (frames_of desc.init_sequence).head?.map (fun c => (c.opcode, c.seq)) =
      some (some ST7703_CMD_SETEXTC, [0xF1, 0x12, 0x83]) ∧
    (frames_of desc.init_sequence).getLast?.map (fun c => (c.opcode, c.seq.length)) =
      some (some ST7703_CMD_SETGAMMA, 34) ∧
    ∀ (k : Nat) (x : Cmd × Int),
      (dsi_xfers ((st7703_prepare env desc w).2.since w))[k]? = some x →
      ∃ c0 r0, (dsi_xfers ((st7703_prepare env desc w).2.since w))[0]? = some (c0, r0) ∧
        c0.opcode = some ST7703_CMD_SETEXTC ∧ c0.seq = [0xF1, 0x12, 0x83] ∧
        (0 < k → 0 ≤ r0) := by
  obtain ⟨hfirst, hlast⟩ := variant_first_last_frame desc hd
  refine ⟨hfirst, hlast, ?_⟩
  intro k x hx
  rcases prepare_xfers env desc hd w with he | he
  · rw [he] at hx
    simp at hx
  · rw [he] at hx ⊢
    obtain ⟨c0, r0, h0, hh, hr⟩ := batch_log_first_frame env _ _ k x hx
    rw [frames_of_steps] at hh
    rw [hh] at hfirst
    simp only [Option.map_some', Option.some.injEq, Prod.mk.injEq] at hfirst
    exact ⟨c0, r0, h0, hfirst.1, hfirst.2, hr⟩

/-- C11 at a concrete input: the jh057n00900 on a bus that fails its third
frame, from the state after probe. -/
theorem st7703_prepare_unlock_first_witness :
    (frames_of jh057n00900_panel_desc.init_sequence).head?.map (fun c => (c.opcode, c.seq)) =
      some (some ST7703_CMD_SETEXTC, [0xF1, 0x12, 0x83]) ∧
    (frames_of jh057n00900_panel_desc.init_sequence).getLast?.map
      (fun c => (c.opcode, c.seq.length)) = some (some ST7703_CMD_SETGAMMA, 34) ∧
    ∀ (k : Nat) (x : Cmd × Int),
      (dsi_xfers ((st7703_prepare env_third_fails jh057n00900_panel_desc hw_off).2.since
        hw_off))[k]? = some x →
      ∃ c0 r0, (dsi_xfers ((st7703_prepare env_third_fails jh057n00900_panel_desc
          hw_off).2.since hw_off))[0]? = some (c0, r0) ∧
        c0.opcode = some ST7703_CMD_SETEXTC ∧ c0.seq = [0xF1, 0x12, 0x83] ∧
        (0 < k → 0 ≤ r0) :=
  st7703_prepare_unlock_first env_third_fails jh057n00900_panel_desc
    (by simp [st7703_variants, st7703_of_match]) hw_off

/-! ## C12: the GX040HD and XBD599 sequences side by side -/

theorem events_on_accepting_bus (env : Env) (hbus : ∀ h c, 0 ≤ env.dsi_transfer h c)
    (desc : st7703_panel_desc) (hd : desc ∈ st7703_variants) (w : Hw) :
    (events_on env desc.init_sequence w).filterMap Event.step = steps_of desc.init_sequence ∧
    ∀ e ∈ events_on env desc.init_sequence w, (Event.step e).isSome = true := by
  unfold events_on
  rw [variant_init_sequence_steps desc hd, run_steps_clear]
  simp only [since_append]
  exact ⟨(batch_accepted env hbus _ _).2, batch_log_steps_only env _ _⟩

theorem no_delay_events (l : List Event)
    (hall : ∀ e ∈ l, (Event.step e).isSome = true)
    (hno : (l.filterMap Event.step).all (fun s => (Step.frame s).isSome) = true) :
    ∀ e ∈ l, (Event.xfer e).isSome = true := by
  induction l with
  | nil => intro e he; simp at he
  | cons a rest ih =>
    intro e he
    have ha := hall a (List.mem_cons_self a rest)
    have hrest : ∀ e ∈ rest, (Event.step e).isSome = true :=
      fun e he => hall e (List.mem_cons_of_mem a he)
    cases a with
    | dsi_transfer c ret =>
      simp only [List.mem_cons] at he
      rcases he with rfl | he
      · rfl
      · refine ih hrest ?_ e he
        simpa [Event.step, Step.frame, List.filterMap_cons] using hno
    | msleep msecs =>
      simp [Event.step, Step.frame, List.filterMap_cons] at hno
    | regulator_enable r ret => simp [Event.step] at ha
    | regulator_disable r => simp [Event.step] at ha
    | gpiod_set_value v => simp [Event.step] at ha
    | usleep_range a b => simp [Event.step] at ha

/-- C12: on every bus that accepts every command, from every hardware state,
`gx040hd_init_sequence` and `xbd599_init_sequence` each log 17 frames and no
delay.  The two frame lists are equal once the frame at 0-based index 14 is
left out of both.  That frame is, in both, the only SETGIP1 (0xE9) frame,
sent with DCS-write framing and 63 parameter bytes; the two parameter lists
agree on positions 0..49 and 56..62, and at positions 50..55 the XBD599 has
00 00 00 01 00 00 where the GX040HD has 88 88 88 88 88 88. -/
theorem gx040hd_xbd599_frames (env : Env) (w : Hw)
    (hbus : ∀ h c, 0 ≤ env.dsi_transfer h c) :
    (frames_on env gx040hd_init_sequence w).length = 17 ∧
    (frames_on env xbd599_init_sequence w).length = 17 ∧
    (∀ e ∈ events_on env gx040hd_init_sequence w, (Event.xfer e).isSome = true) ∧
    (∀ e ∈ events_on env xbd599_init_sequence w, (Event.xfer e).isSome = true) ∧
    (frames_on env gx040hd_init_sequence w).eraseIdx 14 =
      (frames_on env xbd599_init_sequence w).eraseIdx 14 ∧
    ((frames_on env gx040hd_init_sequence w).map Cmd.opcode).count
      (some ST7703_CMD_SETGIP1) = 1 ∧
    ((frames_on env xbd599_init_sequence w).map Cmd.opcode).count
      (some ST7703_CMD_SETGIP1) = 1 ∧
    ∃ sg sx,
      (frames_on env gx040hd_init_sequence w)[14]? =
        some (Cmd.dcs_write_seq ST7703_CMD_SETGIP1 sg) ∧
      (frames_on env xbd599_init_sequence w)[14]? =
        some (Cmd.dcs_write_seq ST7703_CMD_SETGIP1 sx) ∧
      sg.length = 63 ∧ sx.length = 63 ∧
      sg.take 50 = sx.take 50 ∧ sg.drop 56 = sx.drop 56 ∧
      (sx.drop 50).take 6 = [0x00, 0x00, 0x00, 0x01, 0x00, 0x00] ∧
      (sg.drop 50).take 6 = [0x88, 0x88, 0x88, 0x88, 0x88, 0x88] := by
  have hgd : gx040hd_desc ∈ st7703_variants := by simp [st7703_variants, st7703_of_match]
  have hxd : xbd599_desc ∈ st7703_variants := by simp [st7703_variants, st7703_of_match]
  have hg := frames_on_accepting_bus env hbus gx040hd_desc hgd w
  have hx := frames_on_accepting_bus env hbus xbd599_desc hxd w
  have heg := events_on_accepting_bus env hbus gx040hd_desc hgd w
  have hex := events_on_accepting_bus env hbus xbd599_desc hxd w
  simp only [gx040hd_desc, xbd599_desc] at hg hx heg hex
  rw [hg, hx]
  refine ⟨by decide, by decide, ?_, ?_, by decide, by decide, by decide, ?_⟩
  · refine no_delay_events _ heg.2 ?_
    rw [heg.1]
    decide
  · refine no_delay_events _ hex.2 ?_
    rw [hex.1]
    decide
  · refine ⟨(((frames_of gx040hd_init_sequence)[14]?).map Cmd.seq).getD [],
      (((frames_of xbd599_init_sequence)[14]?).map Cmd.seq).getD [], ?_⟩
    decide

/-- C12 at a concrete input: the bus that answers 0 to everything, from the
state after probe. -/
theorem gx040hd_xbd599_frames_witness :
    (frames_on env_ok gx040hd_init_sequence hw_off).length = 17 ∧
    (frames_on env_ok xbd599_init_sequence hw_off).length = 17 ∧
    (∀ e ∈ events_on env_ok gx040hd_init_sequence hw_off, (Event.xfer e).isSome = true) ∧
    (∀ e ∈ events_on env_ok xbd599_init_sequence hw_off, (Event.xfer e).isSome = true) ∧
    (frames_on env_ok gx040hd_init_sequence hw_off).eraseIdx 14 =
      (frames_on env_ok xbd599_init_sequence hw_off).eraseIdx 14 ∧
    ((frames_on env_ok gx040hd_init_sequence hw_off).map Cmd.opcode).count
      (some ST7703_CMD_SETGIP1) = 1 ∧
    ((frames_on env_ok xbd599_init_sequence hw_off).map Cmd.opcode).count
      (some ST7703_CMD_SETGIP1) = 1 ∧
    ∃ sg sx,
      (frames_on env_ok gx040hd_init_sequence hw_off)[14]? =
        some (Cmd.dcs_write_seq ST7703_CMD_SETGIP1 sg) ∧
      (frames_on env_ok xbd599_init_sequence hw_off)[14]? =
        some (Cmd.dcs_write_seq ST7703_CMD_SETGIP1 sx) ∧
      sg.length = 63 ∧ sx.length = 63 ∧
      sg.take 50 = sx.take 50 ∧ sg.drop 56 = sx.drop 56 ∧
      (sx.drop 50).take 6 = [0x00, 0x00, 0x00, 0x01, 0x00, 0x00] ∧
      (sg.drop 50).take 6 = [0x88, 0x88, 0x88, 0x88, 0x88, 0x88] :=
  gx040hd_xbd599_frames env_ok hw_off (fun _ _ => le_refl 0)

end ST7703
